import Mathlib

/-!
Verification of the core reconciliation engine of gstr2brecon
(src/gst_reconciliation_pro.py) against its specification.

Modelling conventions, stated once here:

* Strings are Lean `String`s; Python string operations are modelled at the
  character-list level (`String.data`).  `str.upper` is modelled by
  `Char.toUpper` (ASCII case mapping, exact for the ASCII keys the engine
  compares).
* Missing cells (`pd.isna`) are modelled by `Option`: `none` is a NaN/unset
  cell.
* Monetary amounts are modelled as `Int` values denominated in hundredths of
  the currency unit (paise).  The Python code holds these values as floats
  obtained from `clean_currency`; on amounts with at most two decimal places
  the float additions, subtractions, absolute values and comparisons the
  engine performs are exact, so integer paise arithmetic is a faithful model,
  and `clean_currency` on an already numeric cell is the identity
  (`float(val)`).  The "smallest currency unit" is 1 in this encoding.
* Invoice dates are modelled as `Option Nat`: the result of
  `pd.to_datetime(raw, dayfirst=True, errors="coerce")`, encoded as the
  decimal number yyyymmdd (chronological order coincides with numeric order
  for valid dates); `none` models NaT (an unparsable date).
* The similarity score of `get_similarity_score` (the rapidfuzz
  `fuzz.ratio` branch, `USE_RAPIDFUZZ = True`; the spec pins one
  edit-distance-based ratio) is the exact rational `200 * lcs / (l1 + l2)`,
  represented as an unreduced numerator/denominator pair of naturals and
  compared by cross multiplication, which is exact rational comparison.
* The wall clock (`datetime.now()` in `commit_match`) is modelled as a single
  reading `now` supplied by the caller; every audit entry receives it as its
  timestamp.
* The progress callback is modelled as an optional pure function
  `String → Nat → Unit`, invoked at the same milestones as the source.
* Raised Python exceptions are modelled by `Except`: a statement the
  interpreter cannot execute without raising returns `Except.error` carrying
  the exception text, and every caller propagates it (the source wraps no
  `try` around the engine).  This matters for one statement: the reference
  grouping of layer 8 (`run_reverse_clubbing`, lines 598–603) lists the
  grouping column `Inv_Basic` in its aggregation dictionary, so the chained
  `reset_index()` raises `ValueError: cannot insert Inv_Basic, already
  exists` on every invocation — the engine never returns.
-/

namespace GSTRecon

/-! ## Character and string helpers (Python primitives) -/

/-- Membership in Python `string.punctuation`:
the ASCII ranges 33–47, 58–64, 91–96 and 123–126. -/
def isPyPunct (c : Char) : Bool :=
  (33 ≤ c.toNat && c.toNat ≤ 47) || (58 ≤ c.toNat && c.toNat ≤ 64) ||
  (91 ≤ c.toNat && c.toNat ≤ 96) || (123 ≤ c.toNat && c.toNat ≤ 126)

/-- Python whitespace for `str.strip()`: space, tab, newline, vertical tab,
form feed, carriage return. -/
def isPyWhitespace (c : Char) : Bool :=
  c.toNat == 32 || c.toNat == 9 || c.toNat == 10 ||
  c.toNat == 11 || c.toNat == 12 || c.toNat == 13

/-- Python ASCII digit test (`[0-9]` in the regexes of the source). -/
def isPyDigit (c : Char) : Bool := 48 ≤ c.toNat && c.toNat ≤ 57

/-- The deletion set of `TRANS_TABLE = str.maketrans('', '', string.punctuation + ' ')`:
punctuation plus the single space character (and nothing else). -/
def TRANS_TABLE (c : Char) : Bool := isPyPunct c || c.toNat == 32

/-- Python `s.translate(table)` for a pure deletion table: drop the characters
in the deletion set. -/
def pyTranslate (del : Char → Bool) (l : List Char) : List Char :=
  l.filter (fun c => !(del c))

/-- Python `s.strip()`: drop leading and trailing whitespace. -/
def pyStrip (l : List Char) : List Char :=
  ((l.dropWhile isPyWhitespace).reverse.dropWhile isPyWhitespace).reverse

/-- Python `s.lstrip('0')`: drop leading zero characters. -/
def lstripZeros (l : List Char) : List Char :=
  l.dropWhile (fun c => c.toNat == 48)

/-- Strip characters of a set from both ends (used for Python
`s.strip(" |")` in `commit_match`). -/
def pyStripSet (del : Char → Bool) (l : List Char) : List Char :=
  ((l.dropWhile del).reverse.dropWhile del).reverse

/-- A single-quote character as a string (used in the layer-7 remark text). -/
def sq : String := String.mk [Char.ofNat 39]

/-! ## Key Normalizer (helper functions of the source) -/

/-- Source `normalize_gstin`: `"" if pd.isna(g) else str(g).strip().upper().replace(" ", "")`. -/
def normalize_gstin (g : Option String) : String :=
  match g with
  | none => ""
  | some v => String.mk (((pyStrip v.data).map Char.toUpper).filter (fun c => !(c.toNat == 32)))

/-- Source `get_pan_from_gstin`: first 10 characters of the normalized GSTIN
when it has at least 10, otherwise the whole normalized GSTIN. -/
def get_pan_from_gstin (g : Option String) : String :=
  let norm := normalize_gstin g
  if 10 ≤ norm.data.length then String.mk (norm.data.take 10) else norm

/-- Source `normalize_inv_basic_fast`: `""` on NaN; otherwise
`str(inv).upper().translate(TRANS_TABLE)` and, when the result is nonempty,
`lstrip('0')`. -/
def normalize_inv_basic_fast (inv : Option String) : String :=
  match inv with
  | none => ""
  | some v =>
    let s := pyTranslate TRANS_TABLE (v.data.map Char.toUpper)
    if s.isEmpty then "" else String.mk (lstripZeros s)

/-- Source `normalize_inv_numeric`: keep only digits; when nonempty,
`lstrip('0')`. -/
def normalize_inv_numeric (inv : Option String) : String :=
  match inv with
  | none => ""
  | some v =>
    let s := v.data.filter isPyDigit
    if s.isEmpty then "" else String.mk (lstripZeros s)

/-- Source `get_last_4`: keep only digits; if more than 4 of them, the last
four (without zero stripping); otherwise the zero-stripped digit string. -/
def get_last_4 (inv : Option String) : String :=
  match inv with
  | none => ""
  | some v =>
    let s := v.data.filter isPyDigit
    if 4 < s.length then String.mk (s.drop (s.length - 4))
    else if s.isEmpty then "" else String.mk (lstripZeros s)

/-! ## Similarity score (layer 7) -/

/-- Length of a longest common subsequence, by structural recursion on a
fuel argument (every recursive call shortens the combined length by at least
one, so `l1.length + l2.length` fuel is always enough). -/
def lcsAux : Nat → List Char → List Char → Nat
  | 0, _, _ => 0
  | _ + 1, [], _ => 0
  | _ + 1, _ :: _, [] => 0
  | fuel + 1, a :: as, b :: bs =>
    if a == b then 1 + lcsAux fuel as bs
    else max (lcsAux fuel (a :: as) bs) (lcsAux fuel as (b :: bs))

/-- Length of a longest common subsequence of two character lists. -/
def lcs (l1 l2 : List Char) : Nat := lcsAux (l1.length + l2.length) l1 l2

/-- Source `get_similarity_score` in the rapidfuzz branch: `fuzz.ratio`,
the normalized indel similarity `100 * (1 - dist/(l1+l2)) = 200*lcs/(l1+l2)`
(and 100 when both strings are empty), kept as an unreduced
numerator/denominator pair. -/
def get_similarity_score (s1 s2 : String) : Nat × Nat :=
  let l1 := s1.data.length
  let l2 := s2.data.length
  if l1 + l2 == 0 then (100, 1)
  else (200 * lcs s1.data s2.data, l1 + l2)

/-- Exact comparison `a > b` of two nonnegative fractions by cross
multiplication. -/
def scoreGt (a b : Nat × Nat) : Bool := b.1 * a.2 < a.1 * b.2

/-- Exact comparison `a ≤ b` of two nonnegative fractions by cross
multiplication. -/
def scoreLe (a b : Nat × Nat) : Bool := a.1 * b.2 ≤ b.1 * a.2

/-- Exact test `85 < a` for a nonnegative fraction. -/
def scoreGt85 (a : Nat × Nat) : Bool := 85 * a.2 < a.1

/-- Python `int(score)` for a nonnegative fraction: floor division. -/
def scoreFloorNat (a : Nat × Nat) : Nat := a.1 / a.2

/-! ## Amount helpers -/

/-- Absolute value of an amount difference (`abs` in the source). -/
def aabs (n : Int) : Int := if n < 0 then -n else n

/-- Two-digit zero padding for amount formatting. -/
def pad2 (m : Int) : String := if m < 10 then "0" ++ toString m else toString m

/-- Model of Python `f"{x:.2f}"` on an amount held in integer paise: the
amount already has exactly two decimal places, so formatting is exact. -/
def fmt2 (n : Int) : String :=
  let a := aabs n
  (if n < 0 then "-" else "") ++ toString (a / 100) ++ "." ++ pad2 (a % 100)

/-! ## Data model -/

/-- One raw CIS (source-ledger) line, after the caller's field mapping has
been resolved: the cells the engine reads.  Amount cells are already numeric
(see the modelling conventions above). -/
structure RawCIS where
  gstin : Option String
  invoice : Option String
  date : Option Nat
  taxable : Int
  igst : Int
  cgst : Int
  sgst : Int
deriving DecidableEq, Repr

/-- One raw GSTR-2B (reference-ledger) line. -/
structure RawG2B where
  gstin : Option String
  invoice : Option String
  date : Option Nat
  taxable : Int
  igst : Int
  cgst : Int
  sgst : Int
deriving DecidableEq, Repr

/-- A preprocessed CIS row: the raw cells plus the derived key/amount columns
and the output columns the engine mutates. -/
structure CISRow where
  id : Nat
  normGstin : String
  normPan : String
  invBasic : String
  invNum : String
  invLast4 : String
  invoiceRaw : String
  date : Option Nat
  taxable : Int
  tax : Int
  grandTotal : Int
  status : String
  matchCategory : String
  detailedRemark : String
  gstr2bKey : String
  shortRemark : String
  comments : String
deriving DecidableEq, Repr

/-- A preprocessed GSTR-2B row. -/
structure G2BRow where
  idx : Nat
  normGstin : String
  normPan : String
  invBasic : String
  invNum : String
  invLast4 : String
  invoiceRaw : String
  date : Option Nat
  taxable : Int
  tax : Int
  grandTotal : Int
  status : String
  cisKey : String
deriving DecidableEq, Repr

/-- A clubbed source group (one row of `cis_grouped`). -/
structure CISGroup where
  normGstin : String
  normPan : String
  invBasic : String
  taxable : Int
  tax : Int
  grandTotal : Int
  invNum : String
  invLast4 : String
  invoiceRaw : String
  date : Option Nat
  memberIds : List Nat
  matchedFlag : Bool
deriving DecidableEq, Repr

/-- The timestamp-free content of an audit entry. -/
structure AuditCore where
  layer : String
  cisIds : String
  g2bIds : String
  difference : Int
  detail : String
deriving DecidableEq, Repr

/-- An audit entry: a timestamp plus its content. -/
structure AuditEntry where
  timestamp : String
  entry : AuditCore
deriving DecidableEq, Repr

/-! ## Preprocessing -/

/-- Python `str(x)` on a mapped cell: NaN prints as `"nan"`. -/
def cellStr (v : Option String) : String :=
  match v with
  | none => "nan"
  | some s => s

/-- Preprocess one CIS line (the vectorized `.apply` block of
`run_8_layer_reconciliation`): derive the normalized keys and amounts and
initialize the output columns. -/
def mkCISRow (id : Nat) (r : RawCIS) : CISRow :=
  let tax := r.igst + r.cgst + r.sgst
  { id := id
    normGstin := normalize_gstin r.gstin
    normPan := get_pan_from_gstin r.gstin
    invBasic := normalize_inv_basic_fast r.invoice
    invNum := normalize_inv_numeric r.invoice
    invLast4 := get_last_4 r.invoice
    invoiceRaw := cellStr r.invoice
    date := r.date
    taxable := r.taxable
    tax := tax
    grandTotal := r.taxable + tax
    status := "Unmatched"
    matchCategory := ""
    detailedRemark := ""
    gstr2bKey := ""
    shortRemark := ""
    comments := "" }

/-- Preprocess the CIS table; `Index CIS` runs 1, 2, …. -/
def preprocessCIS (rows : List RawCIS) : List CISRow :=
  (List.enumFrom 1 rows).map (fun p => mkCISRow p.1 p.2)

/-- Preprocess one GSTR-2B line. -/
def mkG2BRow (idx : Nat) (r : RawG2B) : G2BRow :=
  let tax := r.igst + r.cgst + r.sgst
  { idx := idx
    normGstin := normalize_gstin r.gstin
    normPan := get_pan_from_gstin r.gstin
    invBasic := normalize_inv_basic_fast r.invoice
    invNum := normalize_inv_numeric r.invoice
    invLast4 := get_last_4 r.invoice
    invoiceRaw := cellStr r.invoice
    date := r.date
    taxable := r.taxable
    tax := tax
    grandTotal := r.taxable + tax
    status := "Unmatched"
    cisKey := "" }

/-- Preprocess the GSTR-2B table; `INDEX` runs 100000, 100001, …. -/
def preprocessG2B (rows : List RawG2B) : List G2BRow :=
  (List.enumFrom 100000 rows).map (fun p => mkG2BRow p.1 p.2)

/-! ## Grouping (standard clubbing) -/

/-- Codepoint-lexicographic comparison of character lists (Python `str` `<`,
the order `pandas.groupby` sorts string keys by). -/
def charsLt : List Char → List Char → Bool
  | [], [] => false
  | [], _ :: _ => true
  | _ :: _, [] => false
  | a :: as, b :: bs =>
    if a.toNat < b.toNat then true
    else if b.toNat < a.toNat then false
    else charsLt as bs

/-- Lexicographic `≤` on the (GSTIN, PAN, invoice-key) grouping triple. -/
def keyLe (a b : String × String × String) : Bool :=
  if charsLt a.1.data b.1.data then true
  else if charsLt b.1.data a.1.data then false
  else if charsLt a.2.1.data b.2.1.data then true
  else if charsLt b.2.1.data a.2.1.data then false
  else !(charsLt b.2.2.data a.2.2.data)

/-- Insert into a list sorted by `le`. -/
def insertLe {α : Type} (le : α → α → Bool) (x : α) : List α → List α
  | [] => [x]
  | y :: ys => if le x y then x :: y :: ys else y :: insertLe le x ys

/-- Insertion sort by `le` (models the key sorting `pandas.groupby` performs
with its default `sort=True`). -/
def sortLe {α : Type} (le : α → α → Bool) : List α → List α
  | [] => []
  | x :: xs => insertLe le x (sortLe le xs)

/-- Sum of a list of amounts. -/
def sumInt (l : List Int) : Int := l.foldl (· + ·) 0

/-- The grouping key of a CIS row: `(Norm_GSTIN, Norm_PAN, Inv_Basic)`. -/
def cisKeyOf (r : CISRow) : String × String × String :=
  (r.normGstin, r.normPan, r.invBasic)

/-- Build the clubbed group of one key: members in input order, summed
amounts, first member's remaining columns, `Matched_Flag = False`. -/
def mkGroup (rows : List CISRow) (k : String × String × String) : CISGroup :=
  let members := rows.filter (fun r => cisKeyOf r == k)
  { normGstin := k.1
    normPan := k.2.1
    invBasic := k.2.2
    taxable := sumInt (members.map (·.taxable))
    tax := sumInt (members.map (·.tax))
    grandTotal := sumInt (members.map (·.grandTotal))
    invNum := (members.map (·.invNum)).headD ""
    invLast4 := (members.map (·.invLast4)).headD ""
    invoiceRaw := (members.map (·.invoiceRaw)).headD ""
    date := (members.map (·.date)).headD none
    memberIds := members.map (·.id)
    matchedFlag := false }

/-- Source `cis_grouped = cis_proc.groupby([...]).agg({...})`: one group per
distinct key, keys in sorted order. -/
def clubCIS (rows : List CISRow) : List CISGroup :=
  (sortLe keyLe ((rows.map cisKeyOf).eraseDups)).map (mkGroup rows)

/-! ## Engine state and commit -/

/-- The shared mutable state the nested layer procedures update: the two
tables, the audit log (timestamp-free content) and the current layer's
counter. -/
structure LoopState where
  cis : List CISRow
  g2b : List G2BRow
  audit : List AuditCore
  count : Nat
deriving DecidableEq, Repr

/-- Python `str(list_of_ids)`. -/
def pyListStr (ids : List Nat) : String :=
  "[" ++ String.intercalate ", " (ids.map toString) ++ "]"

/-- Python `", ".join(map(str, ids))`. -/
def joinIds (ids : List Nat) : String :=
  String.intercalate ", " (ids.map toString)

/-- Source `f"{existing} | {layer_name}".strip(" |")` in `commit_match`
(the `existing == 'nan'` branch is dead: the column is initialized to `""`). -/
def appendLayerRemark (existing layerName : String) : String :=
  String.mk (pyStripSet (fun c => c.toNat == 32 || c.toNat == 124)
    (existing ++ " | " ++ layerName).data)

/-- Source `commit_match` (both tables and the audit log; the
`Matched_Flag` update differs between the normal and the reverse call and is
performed by the caller).  `round(diff, 2)` is the identity on paise
amounts. -/
def commitMatch (layerName : String) (memberIds g2bIds : List Nat)
    (diff : Int) (detail : String) (st : LoopState) : LoopState :=
  { cis := st.cis.map (fun r =>
      if memberIds.contains r.id then
        { r with status := "Matched", matchCategory := layerName,
                 gstr2bKey := joinIds g2bIds, shortRemark := "Matched",
                 detailedRemark := detail,
                 comments := appendLayerRemark r.comments layerName }
      else r)
    g2b := st.g2b.map (fun r =>
      if g2bIds.contains r.idx then
        { r with status := "Matched", cisKey := joinIds memberIds }
      else r)
    audit := st.audit ++ [{ layer := layerName, cisIds := pyListStr memberIds,
                            g2bIds := pyListStr g2bIds, difference := diff,
                            detail := detail }]
    count := st.count }

/-! ## Standard layers 1–6 -/

/-- Which invoice-key variant a standard layer joins on. -/
inductive JoinCol | basic | num | last4
deriving DecidableEq, Repr

/-- The group's value of the join column. -/
def joinValG : JoinCol → CISGroup → String
  | .basic, g => g.invBasic
  | .num, g => g.invNum
  | .last4, g => g.invLast4

/-- The reference row's value of the join column. -/
def joinValR : JoinCol → G2BRow → String
  | .basic, r => r.invBasic
  | .num, r => r.invNum
  | .last4, r => r.invLast4

/-- Parameters of one `run_standard_layer` call. -/
structure LayerCfg where
  name : String
  joinCol : JoinCol
  tol : Int
  strictTaxSplit : Bool
  usePan : Bool
deriving DecidableEq, Repr

/-- The candidate mask of `run_standard_layer`: status Unmatched, equal join
column, and equal GSTIN (or equal PAN when `use_pan`). -/
def stdCandOk (cfg : LayerCfg) (g : CISGroup) (r : G2BRow) : Bool :=
  r.status == "Unmatched" && joinValR cfg.joinCol r == joinValG cfg.joinCol g &&
    (if cfg.usePan then r.normPan == g.normPan else r.normGstin == g.normGstin)

/-- The amount rule (`is_match`) of `run_standard_layer`: with
`strict_tax_split`, taxable and tax differences each within tolerance;
otherwise grand-total difference within tolerance. -/
def stdAmountOk (cfg : LayerCfg) (g : CISGroup) (r : G2BRow) : Bool :=
  if cfg.strictTaxSplit then
    decide (aabs (g.taxable - r.taxable) ≤ cfg.tol) &&
      decide (aabs (g.tax - r.tax) ≤ cfg.tol)
  else decide (aabs (g.grandTotal - r.grandTotal) ≤ cfg.tol)

/-- The candidate scan of `run_standard_layer`: the first reference row (in
input order) passing the mask and the amount rule. -/
def stdFind (cfg : LayerCfg) (g : CISGroup) (rows : List G2BRow) : Option G2BRow :=
  rows.find? (fun r => stdCandOk cfg g r && stdAmountOk cfg g r)

/-- The remark text built by `run_standard_layer` on a commit. -/
def stdDetail (cfg : LayerCfg) (g : CISGroup) (r : G2BRow) (diff : Int) : String :=
  let p0 := if cfg.usePan then "PAN" else "GSTIN"
  let p1 : List String :=
    match cfg.joinCol with
    | .basic => ["Invoice Number"]
    | .num => ["Numeric Invoice (" ++ g.invoiceRaw ++ " vs " ++ r.invoiceRaw ++ ")"]
    | .last4 => ["Last 4 Digits (" ++ g.invoiceRaw ++ " vs " ++ r.invoiceRaw ++ ")"]
  let p2 : List String :=
    if cfg.strictTaxSplit then ["Taxable Value", "Tax Amount"]
    else ["Grand Total (Diff: ₹" ++ fmt2 diff ++ ")"]
  let p3 : List String :=
    match g.date, r.date with
    | some a, some b => if a == b then ["Date"] else []
    | _, _ => []
  let base := "Matched: " ++ String.intercalate ", " (p0 :: (p1 ++ p2 ++ p3))
  if cfg.usePan && !(g.normGstin == r.normGstin) then
    base ++ " | Note: Matched under different GSTIN " ++ r.normGstin
  else base

/-- The iteration shared by the three layer loops (`for idx, row_cis in
cis_grouped.iterrows()`): visit each group once in order, replacing it by the
step's updated group and threading the shared state. -/
def loopGroups (step : CISGroup → LoopState → CISGroup × LoopState) :
    List CISGroup → LoopState → List CISGroup × LoopState
  | [], st => ([], st)
  | g :: gs, st =>
    let p := step g st
    let res := loopGroups step gs p.2
    (p.1 :: res.1, res.2)

/-- The per-group body of `run_standard_layer`: skip a matched group and a
group whose join key is shorter than 2 characters; otherwise commit on the
first qualifying candidate (setting the group's matched flag) or leave the
state untouched. -/
def stdStep (cfg : LayerCfg) (g : CISGroup) (st : LoopState) : CISGroup × LoopState :=
  if g.matchedFlag then (g, st)
  else if (joinValG cfg.joinCol g).length < 2 then (g, st)
  else
    match stdFind cfg g st.g2b with
    | none => (g, st)
    | some r =>
      let diff := aabs (g.grandTotal - r.grandTotal)
      let st1 := commitMatch cfg.name g.memberIds [r.idx] diff
        (stdDetail cfg g r diff) st
      ({ g with matchedFlag := true }, { st1 with count := st1.count + 1 })

/-- The group loop of `run_standard_layer`. -/
def stdLoop (cfg : LayerCfg) : List CISGroup → LoopState → List CISGroup × LoopState :=
  loopGroups (stdStep cfg)

/-! ## Layer 7: fuzzy match -/

/-- The candidate prefilter of `run_fuzzy_layer`: status Unmatched and
identical exact normalized GSTIN. -/
def fuzzyCandidates (gstin : String) (rows : List G2BRow) : List G2BRow :=
  rows.filter (fun r => r.status == "Unmatched" && r.normGstin == gstin)

/-- The best-candidate scan of `run_fuzzy_layer`: discard a candidate whose
grand-total difference exceeds the tolerance before any string comparison;
otherwise keep it when its score is strictly above 85 and strictly above the
running best. -/
def fuzzyScan (tol : Int) (cisInv : String) (gTotal : Int) :
    List G2BRow → Option G2BRow → Nat × Nat → Option G2BRow × (Nat × Nat)
  | [], best, bs => (best, bs)
  | r :: rest, best, bs =>
    if tol < aabs (gTotal - r.grandTotal) then
      fuzzyScan tol cisInv gTotal rest best bs
    else
      let sc := get_similarity_score cisInv r.invBasic
      if scoreGt85 sc && scoreGt sc bs then fuzzyScan tol cisInv gTotal rest (some r) sc
      else fuzzyScan tol cisInv gTotal rest best bs

/-- The full candidate selection of `run_fuzzy_layer` for one group
(`best_score` starts at 0). -/
def fuzzyPick (tol : Int) (g : CISGroup) (rows : List G2BRow) :
    Option G2BRow × (Nat × Nat) :=
  fuzzyScan tol g.invBasic g.grandTotal (fuzzyCandidates g.normGstin rows) none (0, 1)

/-- The remark text of a layer-7 commit. -/
def fuzzyDetail (cisInv : String) (r : G2BRow) (bs : Nat × Nat) : String :=
  "Matched: GSTIN, Grand Total | Fuzzy Invoice: " ++ sq ++ cisInv ++ sq ++
    " vs " ++ sq ++ r.invBasic ++ sq ++
    " (Similarity: " ++ toString (scoreFloorNat bs) ++ "%)"

/-- The per-group body of `run_fuzzy_layer`: skip a matched group and a group
whose punctuation-stripped key is shorter than 3 characters; otherwise commit
the best-scoring surviving candidate, if any. -/
def fuzzyStep (tol : Int) (g : CISGroup) (st : LoopState) : CISGroup × LoopState :=
  if g.matchedFlag then (g, st)
  else if g.invBasic.length < 3 then (g, st)
  else
    match fuzzyPick tol g st.g2b with
    | (none, _) => (g, st)
    | (some r, bs) =>
      let diff := aabs (g.grandTotal - r.grandTotal)
      let st1 := commitMatch "Layer 7: Fuzzy Match" g.memberIds [r.idx] diff
        (fuzzyDetail g.invBasic r bs) st
      ({ g with matchedFlag := true }, { st1 with count := st1.count + 1 })

/-- The group loop of `run_fuzzy_layer`. -/
def fuzzyLoop (tol : Int) : List CISGroup → LoopState → List CISGroup × LoopState :=
  loopGroups (fuzzyStep tol)

/-! ## Layer 8: reverse clubbing -/

/-- A clubbed reference group (one row of `g2b_grouped`). -/
structure G2BGroup where
  normGstin : String
  invBasic : String
  grandTotal : Int
  memberIds : List Nat
deriving DecidableEq, Repr

/-- Lexicographic `≤` on the (GSTIN, invoice-key) pair. -/
def pairLe (a b : String × String) : Bool :=
  if charsLt a.1.data b.1.data then true
  else if charsLt b.1.data a.1.data then false
  else !(charsLt b.2.data a.2.data)

/-- The text of the exception raised by the reference grouping of layer 8. -/
def pyValueError : String := "ValueError: cannot insert Inv_Basic, already exists"

/-- Source `g2b_grouped` (lines 598–603): the statement
`g2b_unmatched.groupby(["Norm_GSTIN", "Inv_Basic"]).agg({"Grand_Total": "sum",
"INDEX": list, "Inv_Basic": "first"}).reset_index()`.  The aggregation
dictionary lists the grouping column `Inv_Basic`, so the aggregated frame
carries `Inv_Basic` both as an index level and as a data column, and the
chained `reset_index()` — which inserts every index level back as a column —
raises `ValueError: cannot insert Inv_Basic, already exists`.  This happens
on every invocation, an empty unmatched frame included (the empty grouped
frame keeps the same index-level names), so the statement never produces a
group list: it is modelled as the raised error, independent of the rows. -/
def mkG2BGroups ( _rows : List G2BRow) : Except String (List G2BGroup) :=
  Except.error pyValueError

/-- The remark text of a layer-8 commit. -/
def revDetail (n : Nat) (diff : Int) : String :=
  "Matched: GSTIN, Invoice Number | Reverse Clubbing: 1 CIS vs " ++
    toString n ++ " G2B Records (Total Diff: ₹" ++ fmt2 diff ++ ")"

/-- The per-group body of the loop at lines 605–629 of
`run_reverse_clubbing`: for a remaining unmatched source group, look up the
reference group with the identical (GSTIN, invoice-key) pair and commit
one-to-many when the summed grand totals are within tolerance.  Dead code:
the grouping that would build `gb` raises before this loop on every run. -/
def revStep (tol : Int) (gb : List G2BGroup) (g : CISGroup) (st : LoopState) :
    CISGroup × LoopState :=
  if g.matchedFlag then (g, st)
  else
    match gb.find? (fun h => h.normGstin == g.normGstin && h.invBasic == g.invBasic) with
    | none => (g, st)
    | some h =>
      let diff := aabs (g.grandTotal - h.grandTotal)
      if diff ≤ tol then
        let st1 := commitMatch "Layer 8: Reverse Clubbing" g.memberIds h.memberIds
          diff (revDetail h.memberIds.length diff) st
        ({ g with matchedFlag := true }, { st1 with count := st1.count + 1 })
      else (g, st)

/-- The group loop of `run_reverse_clubbing` (dead code, see `revStep`). -/
def revLoop (tol : Int) (gb : List G2BGroup) :
    List CISGroup → LoopState → List CISGroup × LoopState :=
  loopGroups (revStep tol gb)

/-! ## Result assembly -/

/-- The unmatched-remark fill after layer 8 (the `unmatched_mask.any()` guard
of the source is a no-op: the update touches only unmatched rows). -/
def fillUnmatched (r : CISRow) : CISRow :=
  if r.status == "Unmatched" then
    { r with detailedRemark := "Mismatch: Invoice Number not found in GSTR-2B",
             shortRemark := "Not Found" }
  else r

/-- The statutory cutoff `pd.Timestamp("2024-03-31")`, in yyyymmdd encoding. -/
def statutoryCutoff : Nat := 20240331

/-- The time-barred flagging of one row: when the parsed invoice date exists
and is strictly before the cutoff, append the warning to both remarks. -/
def timeBarredOne (r : CISRow) : CISRow :=
  match r.date with
  | some d =>
    if d < statutoryCutoff then
      { r with shortRemark := r.shortRemark ++ " + Time Barred",
               detailedRemark := r.detailedRemark ++ " [Warning: Date < 31 Mar 2024]" }
    else r
  | none => r

/-! ## The full engine -/

/-- A progress callback: a pure, side-effect-free notification receiver. -/
abbrev ProgressCb := String → Nat → Unit

/-- Source `update_progress`: invoke the callback when one was supplied. -/
def updateProgress (cb : Option ProgressCb) (msg : String) (pct : Nat) : Unit :=
  match cb with
  | some f => f msg pct
  | none => ()

/-- The output of the layered matching (before result assembly). -/
structure CoreOut where
  groups : List CISGroup
  state : LoopState
  stats : List (String × Nat)
deriving Repr

/-- The six `run_standard_layer` calls of the source, in call order: name,
join column, tolerance, `strict_tax_split`, `use_pan`. -/
def layerCfgs (tolStd tolHigh : Int) : List LayerCfg :=
  [⟨"Layer 1: Strict Match", .basic, tolStd, true, false⟩,
   ⟨"Layer 2: Grand Total Match", .basic, tolStd, false, false⟩,
   ⟨"Layer 3: High Tolerance", .basic, tolHigh, false, false⟩,
   ⟨"Layer 4: Numeric Only", .num, tolStd, false, false⟩,
   ⟨"Layer 5: Last 4 Digits", .last4, tolStd, false, false⟩,
   ⟨"Layer 6: PAN Level", .basic, tolStd, false, true⟩]

/-- Run the standard layers in order: each starts with `count = 0` and
records `match_stats[layer_name] = count` when it finishes. -/
def runLayersStd : List LayerCfg → List CISGroup → LoopState → List (String × Nat) →
    List CISGroup × LoopState × List (String × Nat)
  | [], gs, st, stats => (gs, st, stats)
  | c :: cs, gs, st, stats =>
    let r := stdLoop c gs { st with count := 0 }
    runLayersStd cs r.1 r.2 (stats ++ [(c.name, r.2.count)])

/-- The state after preprocessing and clubbing and the six standard layers:
both preprocessed tables (statuses initialized Unmatched), the clubbed
groups, and layers 1–6 run in order. -/
def coreA (cisRaw : List RawCIS) (g2bRaw : List RawG2B) (tolStd tolHigh : Int) :
    List CISGroup × LoopState × List (String × Nat) :=
  runLayersStd (layerCfgs tolStd tolHigh) (clubCIS (preprocessCIS cisRaw))
    { cis := preprocessCIS cisRaw, g2b := preprocessG2B g2bRaw, audit := [], count := 0 } []

/-- Layer 7 applied to the output of the standard layers: the fuzzy layer
run with a fresh counter. -/
def coreFuzzy (tolStd : Int) (a : List CISGroup × LoopState × List (String × Nat)) :
    List CISGroup × LoopState :=
  fuzzyLoop tolStd a.1 { a.2.1 with count := 0 }

/-- Layer 8 applied to the output of layer 7 (`run_reverse_clubbing`): first
the grouping of the reference rows still unmatched, then — on a normal
return of the grouping — the reverse-clubbing loop with a fresh counter.
The grouping raises on every run, so the stage propagates the error for
every input state and the loop is never entered. -/
def coreRev (tolStd : Int) (r7 : List CISGroup × LoopState) :
    Except String (List CISGroup × LoopState) :=
  match mkG2BGroups r7.2.g2b with
  | Except.error e => Except.error e
  | Except.ok gb => Except.ok (revLoop tolStd gb r7.1 { r7.2 with count := 0 })

/-- Layers 1–8 of `run_8_layer_reconciliation`: preprocessing, clubbing and
the eight layer runs, with the per-layer statistics collected in execution
order.  The progress notifications (all result-free) are listed once in
milestone order.  Layer 8 raises on every run, so the result is always the
propagated error: layers 1–7 execute, then the run dies in the layer-8
grouping. -/
def engineCore (cisRaw : List RawCIS) (g2bRaw : List RawG2B)
    (tolStd tolHigh : Int) (cb : Option ProgressCb) : Except String CoreOut :=
  let _p10 := updateProgress cb "Preprocessing data..." 10
  let _p20 := updateProgress cb "Grouping CIS records..." 20
  let _p30 := updateProgress cb "Running Layer 1: Strict Match..." 30
  let _p40 := updateProgress cb "Running Layer 2: Grand Total Match..." 40
  let _p50 := updateProgress cb "Running Layer 3: High Tolerance..." 50
  let _p60 := updateProgress cb "Running Layer 4: Numeric Only..." 60
  let _p65 := updateProgress cb "Running Layer 5: Last 4 Digits..." 65
  let _p70 := updateProgress cb "Running Layer 6: PAN Level..." 70
  let _p75 := updateProgress cb "Running Layer 7: Fuzzy Match..." 75
  let _p85 := updateProgress cb "Running Layer 8: Reverse Clubbing..." 85
  match coreRev tolStd (coreFuzzy tolStd (coreA cisRaw g2bRaw tolStd tolHigh)) with
  | Except.error e => Except.error e
  | Except.ok r8 =>
    Except.ok
      { groups := r8.1
        state := r8.2
        stats := (coreA cisRaw g2bRaw tolStd tolHigh).2.2 ++
          [("Layer 7: Fuzzy Match",
            (coreFuzzy tolStd (coreA cisRaw g2bRaw tolStd tolHigh)).2.count),
           ("Layer 8: Reverse Clubbing", r8.2.count)] }

/-- The full result of one reconciliation run. -/
structure ReconResult where
  cis : List CISRow
  g2b : List G2BRow
  stats : List (String × Nat)
  audit : List AuditEntry
deriving Repr

/-- Source `run_8_layer_reconciliation`: the eight layers, then — on a
normal return of the layers — the unmatched-remark fill, the time-barred
flagging and the final outputs (annotated tables, per-layer statistics,
audit log with timestamps).  The layer-8 grouping raises on every run and
nothing catches the exception, so the error propagates out of the function:
the cleanup, the time-barred step and the return (lines 633–659) are never
executed, and no caller ever receives annotated tables. -/
def run_8_layer_reconciliation (cisRaw : List RawCIS) (g2bRaw : List RawG2B)
    (tolStd tolHigh : Int) (now : String) (cb : Option ProgressCb) :
    Except String ReconResult :=
  match engineCore cisRaw g2bRaw tolStd tolHigh cb with
  | Except.error e => Except.error e
  | Except.ok core =>
    let _p90 := updateProgress cb "Finalizing results..." 90
    let cisFilled := core.state.cis.map fillUnmatched
    let cisFinal := cisFilled.map timeBarredOne
    let _p100 := updateProgress cb "Reconciliation complete!" 100
    Except.ok
      { cis := cisFinal
        g2b := core.state.g2b
        stats := core.stats
        audit := core.state.audit.map (fun e => { timestamp := now, entry := e }) }

/-- The group table at the moment the layer-8 grouping raises: the clubbed
source groups as layers 1–7 left them (the live value of `cis_grouped` when
the `ValueError` is thrown). -/
def groupsAtRaise (cisRaw : List RawCIS) (g2bRaw : List RawG2B)
    (tolStd tolHigh : Int) : List CISGroup :=
  (coreFuzzy tolStd (coreA cisRaw g2bRaw tolStd tolHigh)).1

/-- The working state at the moment the layer-8 grouping raises: both row
tables and the audit log as layers 1–7 left them (the live values of
`cis_proc`, `g2b_proc` and `audit_log` when the `ValueError` is thrown). -/
def stateAtRaise (cisRaw : List RawCIS) (g2bRaw : List RawG2B)
    (tolStd tolHigh : Int) : LoopState :=
  (coreFuzzy tolStd (coreA cisRaw g2bRaw tolStd tolHigh)).2

/-! ## Spec-side models (for refinement comparison only) -/

/-- The spec's words for `basicInvoiceKey`: "uppercase, strip all punctuation
and whitespace, strip leading zeros" — with whitespace read as all whitespace
characters.  Stated for comparison with `normalize_inv_basic_fast`. -/
def basicInvoiceKey_specModel (inv : Option String) : String :=
  match inv with
  | none => ""
  | some v =>
    String.mk (lstripZeros ((v.data.map Char.toUpper).filter
      (fun c => !(isPyPunct c || isPyWhitespace c))))

/-- The amended reading of the claim about `basicInvoiceKey`: uppercase,
remove all punctuation and all space characters (U+0020 only), strip leading
zeros; empty string on an unset cell. -/
def basicInvoiceKey_amendedModel (inv : Option String) : String :=
  match inv with
  | none => ""
  | some v =>
    String.mk (lstripZeros ((v.data.map Char.toUpper).filter
      (fun c => !(isPyPunct c || c.toNat == 32))))

/-! ## Predicates used by the claim statements -/

/-- Positionwise monotonicity of the matched flags of a group list: a flag
that is true is still true afterwards. -/
def flagMono (gs gs1 : List CISGroup) : Prop :=
  List.Forall₂ (fun a b => a.matchedFlag = true → b.matchedFlag = true) gs gs1

/-- Positionwise monotonicity of reference-row statuses: a row whose status
is Matched still has status Matched afterwards. -/
def g2bMono (l l1 : List G2BRow) : Prop :=
  List.Forall₂ (fun a b => a.status = "Matched" → b.status = "Matched") l l1

/-- Every row's status is Matched or Unmatched. -/
def statusBinary (l : List CISRow) : Prop :=
  ∀ r ∈ l, r.status = "Matched" ∨ r.status = "Unmatched"

/-- The conditions a reference row survives up to the string comparison of
layer 7: status Unmatched, identical exact normalized GSTIN, and grand-total
difference within standard tolerance (the amount gate). -/
def fuzzyGateOk (tol : Int) (g : CISGroup) (r : G2BRow) : Bool :=
  r.status == "Unmatched" && r.normGstin == g.normGstin &&
    decide (aabs (g.grandTotal - r.grandTotal) ≤ tol)

/-! ## Concrete inputs for counterexamples and witnesses -/

/-- An invoice cell containing a tab: lowercase a, tab, lowercase b. -/
def tabInvoice : String := String.mk [Char.ofNat 97, Char.ofNat 9, Char.ofNat 98]

/-- Scenario A supplier id. -/
def gstinA : String := "07ABCDE1234F1Z5"

/-- Scenario A source table: two lines of the same supplier and invoice,
taxable 6000 and 4000, IGST 1080 and 720 (amounts in paise). -/
def scenarioACIS : List RawCIS :=
  [ { gstin := some gstinA, invoice := some "INV-001", date := none,
      taxable := 600000, igst := 108000, cgst := 0, sgst := 0 },
    { gstin := some gstinA, invoice := some "INV-001", date := none,
      taxable := 400000, igst := 72000, cgst := 0, sgst := 0 } ]

/-- Scenario A reference table: one line, same supplier, invoice differing
only in punctuation, taxable 10000, IGST 1800 (amounts in paise). -/
def scenarioAG2B : List RawG2B :=
  [ { gstin := some gstinA, invoice := some "INV/001", date := none,
      taxable := 1000000, igst := 180000, cgst := 0, sgst := 0 } ]

/-- Scenario A run with the default tolerances (₹2 standard, ₹50 high):
like every run, it ends in the layer-8 error. -/
def scenarioARun : Except String ReconResult :=
  run_8_layer_reconciliation scenarioACIS scenarioAG2B 200 5000 "t0" none

/-- A source table whose only line has invoice `"000"`, whose
punctuation-stripped key is therefore the empty string. -/
def zeroKeyCIS : List RawCIS :=
  [ { gstin := some "G1", invoice := some "000", date := none,
      taxable := 10000, igst := 0, cgst := 0, sgst := 0 } ]

/-- A reference table whose only line has invoice `"0"` (also empty key) and
the same supplier and amount. -/
def zeroKeyG2B : List RawG2B :=
  [ { gstin := some "G1", invoice := some "0", date := none,
      taxable := 10000, igst := 0, cgst := 0, sgst := 0 } ]

/-- The run of the empty-key pair with the default tolerances. -/
def zeroKeyRun : Except String ReconResult :=
  run_8_layer_reconciliation zeroKeyCIS zeroKeyG2B 200 5000 "t0" none

/-- A source table with one line whose grand total exceeds the sum of the
two reference lines by exactly the standard tolerance: no single reference
row is within any tolerance of it, so only the reverse-clubbing rule of
layer 8 (summed reference totals against the source group) could match it. -/
def revPairCIS : List RawCIS :=
  [ { gstin := some "G1", invoice := some "INV7", date := none,
      taxable := 900200, igst := 0, cgst := 0, sgst := 0 } ]

/-- Two reference lines of the same supplier and invoice as `revPairCIS`,
each individually ₹4502 away from the source total but summing to within
exactly the standard tolerance (200 paise) of it. -/
def revPairG2B : List RawG2B :=
  [ { gstin := some "G1", invoice := some "INV7", date := none,
      taxable := 450000, igst := 0, cgst := 0, sgst := 0 },
    { gstin := some "G1", invoice := some "INV7", date := none,
      taxable := 450000, igst := 0, cgst := 0, sgst := 0 } ]

/-- A source table whose single line matches its reference line exactly (so
layer 1 commits it) and is dated 1 January 2024, before the statutory
cutoff. -/
def tbCIS : List RawCIS :=
  [ { gstin := some "G1", invoice := some "INV1", date := some 20240101,
      taxable := 10000, igst := 1800, cgst := 0, sgst := 0 } ]

/-- The reference line matching `tbCIS` exactly. -/
def tbG2B : List RawG2B :=
  [ { gstin := some "G1", invoice := some "INV1", date := none,
      taxable := 10000, igst := 1800, cgst := 0, sgst := 0 } ]

/-- A concrete unmatched source group used by witnesses. -/
def gW : CISGroup :=
  { normGstin := "G1", normPan := "G1", invBasic := "INV9855",
    taxable := 900000, tax := 100000, grandTotal := 1000000,
    invNum := "9855", invLast4 := "9855", invoiceRaw := "INV9855",
    date := none, memberIds := [1], matchedFlag := false }

/-- A concrete unmatched reference row whose key differs from `gW`'s by one
character (similarity 1200/14, strictly above 85). -/
def rW : G2BRow :=
  { idx := 100000, normGstin := "G1", normPan := "G1", invBasic := "INV9885",
    invNum := "9885", invLast4 := "9885", invoiceRaw := "INV9885",
    date := none, taxable := 900000, tax := 100000, grandTotal := 1000000,
    status := "Unmatched", cisKey := "" }

/-- A reference row at exactly tolerance distance from `gW` (difference 200
paise = ₹2). -/
def rWBoundary : G2BRow :=
  { rW with grandTotal := 1000200, invBasic := "INV9855", invNum := "9855" }

/-- A reference row one smallest currency unit beyond tolerance (difference
201 paise). -/
def rWBeyond : G2BRow :=
  { rW with grandTotal := 1000201, invBasic := "INV9855", invNum := "9855" }

/-- A layer-2-style configuration at tolerance ₹2 used by witnesses. -/
def cfgW : LayerCfg :=
  { name := "Layer 2: Grand Total Match", joinCol := .basic, tol := 200,
    strictTaxSplit := false, usePan := false }

/-- An already matched copy of `gW` used by skip-equation witnesses. -/
def gWMatched : CISGroup := { gW with matchedFlag := true }

/-- A small loop state used by witnesses. -/
def stW : LoopState := { cis := [], g2b := [rW], audit := [], count := 0 }

/-- A copy of `gW` with an empty punctuation-stripped key. -/
def gShort : CISGroup := { gW with invBasic := "", invNum := "", invLast4 := "" }

/-- A copy of `gW` with a two-character key (long enough for layers 1–6,
too short for layer 7). -/
def gAB : CISGroup := { gW with invBasic := "AB" }

/-! ## Helper lemmas: the skip equations of the layer loops -/

theorem loopGroups_skip (step : CISGroup → LoopState → CISGroup × LoopState)
    (g : CISGroup) (gs : List CISGroup) (st : LoopState) (h : step g st = (g, st)) :
    loopGroups step (g :: gs) st =
      (g :: (loopGroups step gs st).1, (loopGroups step gs st).2) := by
  simp [loopGroups, h]

theorem stdStep_matched (cfg : LayerCfg) (g : CISGroup) (st : LoopState)
    (h : g.matchedFlag = true) : stdStep cfg g st = (g, st) := by
  simp [stdStep, h]

theorem stdStep_short (cfg : LayerCfg) (g : CISGroup) (st : LoopState)
    (h1 : g.matchedFlag = false) (h2 : (joinValG cfg.joinCol g).length < 2) :
    stdStep cfg g st = (g, st) := by
  simp [stdStep, h1, h2]

theorem fuzzyStep_matched (tol : Int) (g : CISGroup) (st : LoopState)
    (h : g.matchedFlag = true) : fuzzyStep tol g st = (g, st) := by
  simp [fuzzyStep, h]

theorem fuzzyStep_short (tol : Int) (g : CISGroup) (st : LoopState)
    (h1 : g.matchedFlag = false) (h2 : g.invBasic.length < 3) :
    fuzzyStep tol g st = (g, st) := by
  simp [fuzzyStep, h1, h2]

theorem stdLoop_skip_matched (cfg : LayerCfg) (g : CISGroup) (gs : List CISGroup)
    (st : LoopState) (h : g.matchedFlag = true) :
    stdLoop cfg (g :: gs) st = (g :: (stdLoop cfg gs st).1, (stdLoop cfg gs st).2) :=
  loopGroups_skip _ g gs st (stdStep_matched cfg g st h)

theorem stdLoop_skip_short (cfg : LayerCfg) (g : CISGroup) (gs : List CISGroup)
    (st : LoopState) (h1 : g.matchedFlag = false)
    (h2 : (joinValG cfg.joinCol g).length < 2) :
    stdLoop cfg (g :: gs) st = (g :: (stdLoop cfg gs st).1, (stdLoop cfg gs st).2) :=
  loopGroups_skip _ g gs st (stdStep_short cfg g st h1 h2)

theorem fuzzyLoop_skip_matched (tol : Int) (g : CISGroup) (gs : List CISGroup)
    (st : LoopState) (h : g.matchedFlag = true) :
    fuzzyLoop tol (g :: gs) st = (g :: (fuzzyLoop tol gs st).1, (fuzzyLoop tol gs st).2) :=
  loopGroups_skip _ g gs st (fuzzyStep_matched tol g st h)

theorem fuzzyLoop_skip_short (tol : Int) (g : CISGroup) (gs : List CISGroup)
    (st : LoopState) (h1 : g.matchedFlag = false) (h2 : g.invBasic.length < 3) :
    fuzzyLoop tol (g :: gs) st = (g :: (fuzzyLoop tol gs st).1, (fuzzyLoop tol gs st).2) :=
  loopGroups_skip _ g gs st (fuzzyStep_short tol g st h1 h2)

/-! ## Claim C8: basicInvoiceKey -/

/-- Claim C8, counterexample: on an invoice cell containing a tab character,
`normalize_inv_basic_fast` does not remove the tab, while the claim's
"all whitespace characters removed" reading demands that it does. -/
theorem claim_C8_counterexample :
    normalize_inv_basic_fast (some tabInvoice) ≠
      basicInvoiceKey_specModel (some tabInvoice) := by decide

/-- Claim C8, amended: `basicInvoiceKey` is total, returns the empty string
on an unset cell, and otherwise returns the input uppercased with all
punctuation and all space characters (U+0020 only — not other whitespace)
removed and leading zeros stripped. -/
theorem claim_C8 :
    normalize_inv_basic_fast none = "" ∧
    ∀ inv : Option String,
      normalize_inv_basic_fast inv = basicInvoiceKey_amendedModel inv := by
  refine ⟨rfl, ?_⟩
  have hIf : ∀ s : List Char,
      (if s.isEmpty then "" else String.mk (lstripZeros s)) = String.mk (lstripZeros s) := by
    intro s
    cases s with
    | nil => decide
    | cons a t => rfl
  intro inv
  cases inv with
  | none => rfl
  | some v => exact hIf (pyTranslate TRANS_TABLE (v.data.map Char.toUpper))

/-! ## Claim C2: Scenario A -/

/-- Claim C2, counterexample: on Scenario A the claimed layer-2 attribution
never happens.  The only attribution the code ever writes for these records
— in the working table, before the run dies — is layer 1 (Strict Match),
because after clubbing the taxable and tax sums both equal the reference
values exactly, so the strict layer already fires; and the run then raises
the layer-8 `ValueError`, so the engine returns no annotated output in which
any attribution could stand. -/
theorem claim_C2_counterexample :
    (stateAtRaise scenarioACIS scenarioAG2B 200 5000).cis.map
        (fun r : CISRow => r.matchCategory) =
      ["Layer 1: Strict Match", "Layer 1: Strict Match"] ∧
    (stateAtRaise scenarioACIS scenarioAG2B 200 5000).cis.map
        (fun r : CISRow => r.matchCategory) ≠
      ["Layer 2: Grand Total Match", "Layer 2: Grand Total Match"] ∧
    scenarioARun = Except.error pyValueError := by
  exact ⟨by decide, by decide, rfl⟩

/-- Claim C2, amended: Scenario A clubs the two source lines into one group
with grand total 11800 (1180000 paise) containing both records; layer 1
(Strict Match) — not layer 2 — marks the group and both records Matched in
the working tables, since the clubbed taxable and tax totals equal the
reference values exactly; and the run then raises the layer-8 `ValueError`
instead of returning an annotated output. -/
theorem claim_C2 :
    (clubCIS (preprocessCIS scenarioACIS)).map
        (fun g => (g.invBasic, g.grandTotal, g.memberIds)) =
      [("INV001", 1180000, [1, 2])] ∧
    (stateAtRaise scenarioACIS scenarioAG2B 200 5000).cis.map
        (fun r : CISRow => (r.status, r.matchCategory)) =
      [("Matched", "Layer 1: Strict Match"), ("Matched", "Layer 1: Strict Match")] ∧
    (groupsAtRaise scenarioACIS scenarioAG2B 200 5000).map
        (fun g => g.matchedFlag) = [true] ∧
    (coreA scenarioACIS scenarioAG2B 200 5000).2.2 =
      [("Layer 1: Strict Match", 1), ("Layer 2: Grand Total Match", 0),
       ("Layer 3: High Tolerance", 0), ("Layer 4: Numeric Only", 0),
       ("Layer 5: Last 4 Digits", 0), ("Layer 6: PAN Level", 0)] ∧
    scenarioARun = Except.error pyValueError := by
  exact ⟨by decide, by decide, by decide, by decide, rfl⟩

/-! ## Claim C3: short invoice keys -/

/-- Claim C3, counterexample: at a concrete pair whose single source group
has the empty punctuation-stripped key, layer 8 does not skip the group as
the claim states — the group is still unmatched when layer 8 starts, and the
layer never completes a pass over any group: its reference grouping raises
first, the error propagates, and the run returns no output in which the
group was skipped past. -/
theorem claim_C3_counterexample :
    (clubCIS (preprocessCIS zeroKeyCIS)).map (fun g => g.invBasic) = [""] ∧
    (groupsAtRaise zeroKeyCIS zeroKeyG2B 200 5000).map
        (fun g => g.matchedFlag) = [false] ∧
    coreRev 200 (coreFuzzy 200 (coreA zeroKeyCIS zeroKeyG2B 200 5000)) =
        Except.error pyValueError ∧
    zeroKeyRun = Except.error pyValueError := by
  exact ⟨by decide, by decide, rfl, rfl⟩

/-- Claim C3, amended: layers 1–6 skip every group whose relevant invoice-key
variant is shorter than 2 characters, and layer 7 skips every group whose
punctuation-stripped key is shorter than 3 (hence also every key shorter
than 2); layer 8 has no key-length guard and never examines any group at all
— its reference grouping raises on every run, so it neither skips past nor
commits a match for any group, short-keyed or not. -/
theorem claim_C3 :
    (∀ (cfg : LayerCfg) (g : CISGroup) (gs : List CISGroup) (st : LoopState),
        g.matchedFlag = false → (joinValG cfg.joinCol g).length < 2 →
        stdLoop cfg (g :: gs) st = (g :: (stdLoop cfg gs st).1, (stdLoop cfg gs st).2)) ∧
    (∀ (tol : Int) (g : CISGroup) (gs : List CISGroup) (st : LoopState),
        g.matchedFlag = false → g.invBasic.length < 3 →
        fuzzyLoop tol (g :: gs) st = (g :: (fuzzyLoop tol gs st).1, (fuzzyLoop tol gs st).2)) ∧
    (∀ rows : List G2BRow, mkG2BGroups rows = Except.error pyValueError) :=
  ⟨stdLoop_skip_short, fuzzyLoop_skip_short, fun _ => rfl⟩

/-- Claim C3, witness: at a concrete group with an empty key, a standard
layer and the fuzzy layer both leave the state untouched. -/
theorem claim_C3_witness :
    stdLoop cfgW [gShort] stW = ([gShort], stW) ∧
    fuzzyLoop 200 [gShort] stW = ([gShort], stW) :=
  ⟨(claim_C3.1 cfgW gShort [] stW (by decide) (by decide)).trans (by decide),
   (claim_C3.2.1 200 gShort [] stW (by decide) (by decide)).trans (by decide)⟩

/-! ## Claim C10: the stricter length precondition of layer 7 -/

/-- Claim C10: layer 7 skips — commits nothing for — every source group whose
punctuation-stripped invoice key is shorter than 3 characters, a strictly
stronger precondition than the length-2 guard of the other layers. -/
theorem claim_C10 :
    ∀ (tol : Int) (g : CISGroup) (gs : List CISGroup) (st : LoopState),
      g.matchedFlag = false → g.invBasic.length < 3 →
      fuzzyLoop tol (g :: gs) st =
        (g :: (fuzzyLoop tol gs st).1, (fuzzyLoop tol gs st).2) :=
  fuzzyLoop_skip_short

/-- Claim C10, witness: a group with a two-character key — accepted by
layers 1–6 — is skipped by layer 7. -/
theorem claim_C10_witness :
    fuzzyLoop 200 [gAB] stW = ([gAB], stW) ∧ ¬ gAB.invBasic.length < 2 :=
  ⟨(claim_C10 200 gAB [] stW (by decide) (by decide)).trans (by decide), by decide⟩

/-! ## Claim C4: tolerance boundaries -/

/-- Claim C4, counterexample: a pair only the layer-8 rule could match, at a
summed grand-total difference exactly equal to the standard tolerance — by
the claim, the first qualifying candidate at the boundary is committed.  It
never is: layers 1–7 leave everything unmatched (each individual reference
row is far outside every tolerance and the fuzzy amount gate discards both),
and layer 8 raises in its reference grouping before any amount is compared,
so the run errors out and no commit at the boundary ever happens. -/
theorem claim_C4_counterexample :
    (clubCIS (preprocessCIS revPairCIS)).map (fun g => g.grandTotal) = [900200] ∧
    (stateAtRaise revPairCIS revPairG2B 200 5000).g2b.map
        (fun r : G2BRow => (r.status, r.grandTotal)) =
      [("Unmatched", 450000), ("Unmatched", 450000)] ∧
    aabs (900200 - (450000 + 450000)) = (200 : Int) ∧
    (stateAtRaise revPairCIS revPairG2B 200 5000).cis.map
        (fun r : CISRow => r.status) = ["Unmatched"] ∧
    coreRev 200 (coreFuzzy 200 (coreA revPairCIS revPairG2B 200 5000)) =
        Except.error pyValueError ∧
    run_8_layer_reconciliation revPairCIS revPairG2B 200 5000 "t0" none =
        Except.error pyValueError := by
  exact ⟨by decide, by decide, by decide, by decide, rfl, rfl⟩

/-- Claim C4, amended: in the amount rules of the layers that execute —
the standard layers (both variants of the rule) and the fuzzy layer's amount
gate — a difference exactly equal to the tolerance satisfies the rule, a
difference strictly greater (by as little as one paise, the smallest
currency unit of the integer model) does not, and the first qualifying
candidate is the one found; the layer-8 rule (`diff_grand <= tol_std` at
lines 621–623 of the source) is dead code: the stage raises for every input
state before any amount is compared, so no pair is ever committed by
layer 8, at the boundary or anywhere else. -/
theorem claim_C4 :
    (∀ (cfg : LayerCfg) (g : CISGroup) (r : G2BRow), cfg.strictTaxSplit = false →
        aabs (g.grandTotal - r.grandTotal) = cfg.tol → stdAmountOk cfg g r = true) ∧
    (∀ (cfg : LayerCfg) (g : CISGroup) (r : G2BRow), cfg.strictTaxSplit = false →
        cfg.tol < aabs (g.grandTotal - r.grandTotal) → stdAmountOk cfg g r = false) ∧
    (∀ (cfg : LayerCfg) (g : CISGroup) (r : G2BRow), cfg.strictTaxSplit = true →
        aabs (g.taxable - r.taxable) ≤ cfg.tol → aabs (g.tax - r.tax) ≤ cfg.tol →
        stdAmountOk cfg g r = true) ∧
    (∀ (cfg : LayerCfg) (g : CISGroup) (r : G2BRow), cfg.strictTaxSplit = true →
        cfg.tol < aabs (g.taxable - r.taxable) ∨ cfg.tol < aabs (g.tax - r.tax) →
        stdAmountOk cfg g r = false) ∧
    (∀ (cfg : LayerCfg) (g : CISGroup) (r : G2BRow) (rest : List G2BRow),
        stdCandOk cfg g r = true → stdAmountOk cfg g r = true →
        stdFind cfg g (r :: rest) = some r) ∧
    (∀ (tol : Int) (inv : String) (gT : Int) (r : G2BRow) (l : List G2BRow)
        (b : Option G2BRow) (s : Nat × Nat), tol < aabs (gT - r.grandTotal) →
        fuzzyScan tol inv gT (r :: l) b s = fuzzyScan tol inv gT l b s) ∧
    (∀ (tol : Int) (inv : String) (gT : Int) (r : G2BRow) (l : List G2BRow)
        (b : Option G2BRow) (s : Nat × Nat), aabs (gT - r.grandTotal) = tol →
        fuzzyScan tol inv gT (r :: l) b s =
          (if scoreGt85 (get_similarity_score inv r.invBasic) &&
              scoreGt (get_similarity_score inv r.invBasic) s then
            fuzzyScan tol inv gT l (some r) (get_similarity_score inv r.invBasic)
          else fuzzyScan tol inv gT l b s)) ∧
    (∀ (tol : Int) (r7 : List CISGroup × LoopState),
        coreRev tol r7 = Except.error pyValueError) := by
  refine ⟨?_, ?_, ?_, ?_, ?_, ?_, ?_, ?_⟩
  · intro cfg g r h1 h2
    simp [stdAmountOk, h1, h2]
  · intro cfg g r h1 h2
    simp [stdAmountOk, h1, not_le.mpr h2]
  · intro cfg g r h1 h2 h3
    simp [stdAmountOk, h1, h2, h3]
  · intro cfg g r h1 h2
    rcases h2 with h2 | h2 <;> simp [stdAmountOk, h1, not_le.mpr h2]
  · intro cfg g r rest h1 h2
    simp [stdFind, List.find?_cons, h1, h2]
  · intro tol inv gT r l b s h
    simp [fuzzyScan, h]
  · intro tol inv gT r l b s h
    rw [fuzzyScan]
    simp [h]
  · intro tol r7
    rfl

/-- Claim C4, witness: with standard tolerance ₹2 (200 paise), a grand-total
difference of exactly 200 satisfies the layer-2 rule and is found first,
while 201 does not satisfy it. -/
theorem claim_C4_witness :
    stdAmountOk cfgW gW rWBoundary = true ∧
    stdAmountOk cfgW gW rWBeyond = false ∧
    stdFind cfgW gW [rWBoundary] = some rWBoundary :=
  ⟨claim_C4.1 cfgW gW rWBoundary (by decide) (by decide),
   claim_C4.2.1 cfgW gW rWBeyond (by decide) (by decide),
   claim_C4.2.2.2.2.1 cfgW gW rWBoundary [] (by decide) (by decide)⟩

/-! ## Helper lemmas: Forall₂ plumbing and monotone state invariants -/

theorem forall2_self {α : Type} {P : α → α → Prop} (h : ∀ a, P a a) :
    ∀ l : List α, List.Forall₂ P l l
  | [] => List.Forall₂.nil
  | a :: l => List.Forall₂.cons (h a) (forall2_self h l)

theorem forall2_map {α : Type} {P : α → α → Prop} (f : α → α) (h : ∀ a, P a (f a)) :
    ∀ l : List α, List.Forall₂ P l (l.map f)
  | [] => List.Forall₂.nil
  | a :: l => List.Forall₂.cons (h a) (forall2_map f h l)

theorem forall2_trans {α : Type} {P : α → α → Prop}
    (ht : ∀ a b c, P a b → P b c → P a c) :
    ∀ {l1 l2 l3 : List α}, List.Forall₂ P l1 l2 → List.Forall₂ P l2 l3 →
      List.Forall₂ P l1 l3 := by
  intro l1 l2 l3 h12 h23
  induction h12 generalizing l3 with
  | nil => cases h23; exact List.Forall₂.nil
  | cons hab h ih =>
    cases h23 with
    | cons hbc h2 => exact List.Forall₂.cons (ht _ _ _ hab hbc) (ih h2)

theorem flagMono_refl (gs : List CISGroup) : flagMono gs gs :=
  forall2_self (fun _ h => h) gs

theorem flagMono_trans {a b c : List CISGroup} (h1 : flagMono a b) (h2 : flagMono b c) :
    flagMono a c :=
  forall2_trans (fun _ _ _ hab hbc h => hbc (hab h)) h1 h2

theorem g2bMono_refl (l : List G2BRow) : g2bMono l l :=
  forall2_self (fun _ h => h) l

theorem g2bMono_trans {a b c : List G2BRow} (h1 : g2bMono a b) (h2 : g2bMono b c) :
    g2bMono a c :=
  forall2_trans (fun _ _ _ hab hbc h => hbc (hab h)) h1 h2

theorem map_comp_eq {α β : Type} (f : α → α) (h : α → β) (he : ∀ a, h (f a) = h a) :
    ∀ l : List α, (l.map f).map h = l.map h
  | [] => rfl
  | a :: l => by simp only [List.map_cons, he a, map_comp_eq f h he l]

theorem statusBinary_map (f : CISRow → CISRow)
    (hf : ∀ r, (f r).status = r.status ∨ (f r).status = "Matched")
    (l : List CISRow) (hl : statusBinary l) : statusBinary (l.map f) := by
  intro r hr
  rcases List.mem_map.mp hr with ⟨a, ha, rfl⟩
  rcases hf a with h | h
  · rw [h]; exact hl a ha
  · exact Or.inl h

/-! ## Helper lemmas: what `commit_match` does to the state -/

theorem commitMatch_g2bMono (layer : String) (m ids : List Nat) (d : Int)
    (detail : String) (st : LoopState) :
    g2bMono st.g2b (commitMatch layer m ids d detail st).g2b := by
  unfold g2bMono commitMatch
  refine forall2_map _ ?_ st.g2b
  intro r
  by_cases hc : r.idx ∈ ids <;> simp [hc]

theorem commitMatch_cis_ids (layer : String) (m ids : List Nat) (d : Int)
    (detail : String) (st : LoopState) :
    (commitMatch layer m ids d detail st).cis.map (fun r => r.id) =
      st.cis.map (fun r => r.id) := by
  unfold commitMatch
  refine map_comp_eq _ _ ?_ st.cis
  intro r
  by_cases hc : r.id ∈ m <;> simp [hc]

theorem commitMatch_statusBinary (layer : String) (m ids : List Nat) (d : Int)
    (detail : String) (st : LoopState) (h : statusBinary st.cis) :
    statusBinary (commitMatch layer m ids d detail st).cis := by
  unfold commitMatch
  refine statusBinary_map _ ?_ st.cis h
  intro r
  by_cases hc : r.id ∈ m <;> simp [hc]

/-! ## Helper lemmas: the three step functions either skip or commit -/

theorem stdStep_stateCases (cfg : LayerCfg) (g : CISGroup) (st : LoopState) :
    (stdStep cfg g st).2 = st ∨
    ∃ (layer : String) (m ids : List Nat) (diff : Int) (detail : String),
      (stdStep cfg g st).2 =
        { commitMatch layer m ids diff detail st with
          count := (commitMatch layer m ids diff detail st).count + 1 } := by
  by_cases h1 : g.matchedFlag
  · left; simp [stdStep, h1]
  · by_cases h2 : (joinValG cfg.joinCol g).length < 2
    · left; simp [stdStep, h1, h2]
    · cases hf : stdFind cfg g st.g2b with
      | none => left; simp [stdStep, h1, h2, hf]
      | some r =>
        right
        refine ⟨cfg.name, g.memberIds, [r.idx], aabs (g.grandTotal - r.grandTotal),
          stdDetail cfg g r (aabs (g.grandTotal - r.grandTotal)), ?_⟩
        simp [stdStep, h1, h2, hf]

theorem fuzzyStep_stateCases (tol : Int) (g : CISGroup) (st : LoopState) :
    (fuzzyStep tol g st).2 = st ∨
    ∃ (layer : String) (m ids : List Nat) (diff : Int) (detail : String),
      (fuzzyStep tol g st).2 =
        { commitMatch layer m ids diff detail st with
          count := (commitMatch layer m ids diff detail st).count + 1 } := by
  by_cases h1 : g.matchedFlag
  · left; simp [fuzzyStep, h1]
  · by_cases h2 : g.invBasic.length < 3
    · left; simp [fuzzyStep, h1, h2]
    · rcases hf : fuzzyPick tol g st.g2b with ⟨o, bs⟩
      cases o with
      | none => left; simp [fuzzyStep, h1, h2, hf]
      | some r =>
        right
        refine ⟨"Layer 7: Fuzzy Match", g.memberIds, [r.idx],
          aabs (g.grandTotal - r.grandTotal), fuzzyDetail g.invBasic r bs, ?_⟩
        simp [fuzzyStep, h1, h2, hf]

/-! ## Helper lemmas: generic loop invariants -/

theorem loopGroups_flagMono (step : CISGroup → LoopState → CISGroup × LoopState)
    (hstep : ∀ g st, g.matchedFlag = true → (step g st).1.matchedFlag = true) :
    ∀ (gs : List CISGroup) (st : LoopState), flagMono gs (loopGroups step gs st).1 := by
  intro gs
  induction gs with
  | nil => intro st; exact List.Forall₂.nil
  | cons g gs ih =>
    intro st
    simp only [loopGroups]
    exact List.Forall₂.cons (hstep g st) (ih _)

theorem loopGroups_state (step : CISGroup → LoopState → CISGroup × LoopState)
    (P : LoopState → LoopState → Prop) (hrefl : ∀ s, P s s)
    (htrans : ∀ a b c, P a b → P b c → P a c)
    (hstep : ∀ g st, P st (step g st).2) :
    ∀ (gs : List CISGroup) (st : LoopState), P st (loopGroups step gs st).2 := by
  intro gs
  induction gs with
  | nil => intro st; exact hrefl st
  | cons g gs ih =>
    intro st
    simp only [loopGroups]
    exact htrans _ _ _ (hstep g st) (ih _)

theorem stateCases_prop {step : CISGroup → LoopState → CISGroup × LoopState}
    (P : LoopState → LoopState → Prop) (hrefl : ∀ s, P s s)
    (hcommit : ∀ (layer : String) (m ids : List Nat) (diff : Int) (detail : String)
      (st : LoopState), P st
        { commitMatch layer m ids diff detail st with
          count := (commitMatch layer m ids diff detail st).count + 1 })
    (hcases : ∀ g st, (step g st).2 = st ∨
      ∃ (layer : String) (m ids : List Nat) (diff : Int) (detail : String),
        (step g st).2 =
          { commitMatch layer m ids diff detail st with
            count := (commitMatch layer m ids diff detail st).count + 1 }) :
    ∀ (g : CISGroup) (st : LoopState), P st (step g st).2 := by
  intro g st
  rcases hcases g st with h | ⟨l, m, i, d, dt, h⟩
  · rw [h]; exact hrefl st
  · rw [h]; exact hcommit l m i d dt st

/-! ## Step-level flag monotonicity -/

theorem stdStep_flag (cfg : LayerCfg) (g : CISGroup) (st : LoopState)
    (h : g.matchedFlag = true) : (stdStep cfg g st).1.matchedFlag = true := by
  simp [stdStep, h]

theorem fuzzyStep_flag (tol : Int) (g : CISGroup) (st : LoopState)
    (h : g.matchedFlag = true) : (fuzzyStep tol g st).1.matchedFlag = true := by
  simp [fuzzyStep, h]

/-! ## The state invariants, per executed loop -/

theorem g2bMono_state_commit : ∀ (layer : String) (m ids : List Nat) (diff : Int)
    (detail : String) (st : LoopState), g2bMono st.g2b
      ({ commitMatch layer m ids diff detail st with
         count := (commitMatch layer m ids diff detail st).count + 1 }).g2b :=
  fun layer m ids diff detail st => commitMatch_g2bMono layer m ids diff detail st

theorem cis_ids_state_commit : ∀ (layer : String) (m ids : List Nat) (diff : Int)
    (detail : String) (st : LoopState),
    st.cis.map (fun r => r.id) =
      ({ commitMatch layer m ids diff detail st with
         count := (commitMatch layer m ids diff detail st).count + 1 }).cis.map
        (fun r : CISRow => r.id) :=
  fun layer m ids diff detail st => (commitMatch_cis_ids layer m ids diff detail st).symm

theorem statusBinary_state_commit : ∀ (layer : String) (m ids : List Nat) (diff : Int)
    (detail : String) (st : LoopState),
    statusBinary st.cis →
    statusBinary ({ commitMatch layer m ids diff detail st with
      count := (commitMatch layer m ids diff detail st).count + 1 }).cis :=
  fun layer m ids diff detail st h => commitMatch_statusBinary layer m ids diff detail st h

theorem stdLoop_flagMono (cfg : LayerCfg) (gs : List CISGroup) (st : LoopState) :
    flagMono gs (stdLoop cfg gs st).1 :=
  loopGroups_flagMono _ (stdStep_flag cfg) gs st

theorem fuzzyLoop_flagMono (tol : Int) (gs : List CISGroup) (st : LoopState) :
    flagMono gs (fuzzyLoop tol gs st).1 :=
  loopGroups_flagMono _ (fuzzyStep_flag tol) gs st

theorem stdLoop_g2bMono (cfg : LayerCfg) (gs : List CISGroup) (st : LoopState) :
    g2bMono st.g2b (stdLoop cfg gs st).2.g2b :=
  loopGroups_state _ (fun a b => g2bMono a.g2b b.g2b) (fun s => g2bMono_refl s.g2b)
    (fun _ _ _ => g2bMono_trans)
    (stateCases_prop (fun a b => g2bMono a.g2b b.g2b) (fun s => g2bMono_refl s.g2b) g2bMono_state_commit
      (stdStep_stateCases cfg)) gs st

theorem fuzzyLoop_g2bMono (tol : Int) (gs : List CISGroup) (st : LoopState) :
    g2bMono st.g2b (fuzzyLoop tol gs st).2.g2b :=
  loopGroups_state _ (fun a b => g2bMono a.g2b b.g2b) (fun s => g2bMono_refl s.g2b)
    (fun _ _ _ => g2bMono_trans)
    (stateCases_prop (fun a b => g2bMono a.g2b b.g2b) (fun s => g2bMono_refl s.g2b) g2bMono_state_commit
      (fuzzyStep_stateCases tol)) gs st

theorem stdLoop_cis_ids (cfg : LayerCfg) (gs : List CISGroup) (st : LoopState) :
    st.cis.map (fun r => r.id) = (stdLoop cfg gs st).2.cis.map (fun r => r.id) :=
  loopGroups_state _ (fun a b => a.cis.map (fun r => r.id) = b.cis.map (fun r => r.id))
    (fun _ => rfl) (fun _ _ _ => Eq.trans)
    (stateCases_prop (fun a b => a.cis.map (fun r => r.id) = b.cis.map (fun r => r.id)) (fun _ => rfl) cis_ids_state_commit (stdStep_stateCases cfg)) gs st

theorem fuzzyLoop_cis_ids (tol : Int) (gs : List CISGroup) (st : LoopState) :
    st.cis.map (fun r => r.id) = (fuzzyLoop tol gs st).2.cis.map (fun r => r.id) :=
  loopGroups_state _ (fun a b => a.cis.map (fun r => r.id) = b.cis.map (fun r => r.id))
    (fun _ => rfl) (fun _ _ _ => Eq.trans)
    (stateCases_prop (fun a b => a.cis.map (fun r => r.id) = b.cis.map (fun r => r.id)) (fun _ => rfl) cis_ids_state_commit (fuzzyStep_stateCases tol)) gs st

theorem stdLoop_statusBinary (cfg : LayerCfg) (gs : List CISGroup) (st : LoopState) :
    statusBinary st.cis → statusBinary (stdLoop cfg gs st).2.cis :=
  loopGroups_state _ (fun a b => statusBinary a.cis → statusBinary b.cis)
    (fun _ h => h) (fun _ _ _ h1 h2 h => h2 (h1 h))
    (stateCases_prop (fun a b => statusBinary a.cis → statusBinary b.cis) (fun _ h => h) statusBinary_state_commit (stdStep_stateCases cfg)) gs st

theorem fuzzyLoop_statusBinary (tol : Int) (gs : List CISGroup) (st : LoopState) :
    statusBinary st.cis → statusBinary (fuzzyLoop tol gs st).2.cis :=
  loopGroups_state _ (fun a b => statusBinary a.cis → statusBinary b.cis)
    (fun _ h => h) (fun _ _ _ h1 h2 h => h2 (h1 h))
    (stateCases_prop (fun a b => statusBinary a.cis → statusBinary b.cis) (fun _ h => h) statusBinary_state_commit (fuzzyStep_stateCases tol)) gs st

/-! ## Helper lemmas: candidates are always Unmatched reference rows -/

theorem stdFind_unmatched (cfg : LayerCfg) (g : CISGroup) (rows : List G2BRow)
    (r : G2BRow) (h : stdFind cfg g rows = some r) : r.status = "Unmatched" := by
  unfold stdFind at h
  have hp := List.find?_some h
  simp only [Bool.and_eq_true, stdCandOk, beq_iff_eq] at hp
  exact hp.1.1.1

theorem fuzzyScan_mem (tol : Int) (inv : String) (gT : Int) :
    ∀ (l : List G2BRow) (b : Option G2BRow) (s : Nat × Nat) (r : G2BRow) (t : Nat × Nat),
      fuzzyScan tol inv gT l b s = (some r, t) → b = some r ∨ r ∈ l := by
  intro l
  induction l with
  | nil =>
    intro b s r t h
    unfold fuzzyScan at h
    exact Or.inl (congrArg Prod.fst h)
  | cons c cs ih =>
    intro b s r t h
    unfold fuzzyScan at h
    by_cases h1 : tol < aabs (gT - c.grandTotal)
    · rw [if_pos h1] at h
      rcases ih _ _ _ _ h with hb | hm
      · exact Or.inl hb
      · exact Or.inr (List.mem_cons_of_mem c hm)
    · rw [if_neg h1] at h
      by_cases h2 : (scoreGt85 (get_similarity_score inv c.invBasic) &&
          scoreGt (get_similarity_score inv c.invBasic) s) = true
      · simp only [h2, if_true] at h
        rcases ih _ _ _ _ h with hb | hm
        · cases hb
          exact Or.inr (List.mem_cons_self c cs)
        · exact Or.inr (List.mem_cons_of_mem c hm)
      · simp only [h2, if_false] at h
        rcases ih _ _ _ _ h with hb | hm
        · exact Or.inl hb
        · exact Or.inr (List.mem_cons_of_mem c hm)

theorem fuzzyPick_unmatched (tol : Int) (g : CISGroup) (rows : List G2BRow)
    (r : G2BRow) (bs : Nat × Nat) (h : fuzzyPick tol g rows = (some r, bs)) :
    r.status = "Unmatched" ∧ r.normGstin = g.normGstin := by
  unfold fuzzyPick at h
  rcases fuzzyScan_mem tol g.invBasic g.grandTotal _ _ _ _ _ h with hb | hm
  · cases hb
  · have := List.mem_filter.mp hm
    simp only [Bool.and_eq_true, beq_iff_eq] at this
    exact this.2

/-! ## Helper lemmas: preprocessing -/

theorem enumFrom_map_fst {α : Type} :
    ∀ (k : Nat) (l : List α), (List.enumFrom k l).map (fun p => p.1) = List.range' k l.length
  | _, [] => rfl
  | k, a :: l => by
    simp [List.enumFrom, List.range', enumFrom_map_fst (k + 1) l]

theorem preprocessCIS_ids (rows : List RawCIS) :
    (preprocessCIS rows).map (fun r => r.id) = List.range' 1 rows.length := by
  unfold preprocessCIS
  rw [List.map_map]
  exact enumFrom_map_fst 1 rows

theorem preprocessCIS_statusBinary (rows : List RawCIS) :
    statusBinary (preprocessCIS rows) := by
  intro r hr
  rcases List.mem_map.mp hr with ⟨p, _, rfl⟩
  exact Or.inr rfl

/-! ## Helper lemmas: whole-run composition -/

theorem runLayersStd_flagMono :
    ∀ (cfgs : List LayerCfg) (gs : List CISGroup) (st : LoopState)
      (stats : List (String × Nat)), flagMono gs (runLayersStd cfgs gs st stats).1 := by
  intro cfgs
  induction cfgs with
  | nil => intro gs st stats; exact flagMono_refl gs
  | cons c cs ih =>
    intro gs st stats
    simp only [runLayersStd]
    exact flagMono_trans (stdLoop_flagMono c gs { st with count := 0 }) (ih _ _ _)

theorem runLayersStd_g2bMono :
    ∀ (cfgs : List LayerCfg) (gs : List CISGroup) (st : LoopState)
      (stats : List (String × Nat)),
      g2bMono st.g2b (runLayersStd cfgs gs st stats).2.1.g2b := by
  intro cfgs
  induction cfgs with
  | nil => intro gs st stats; exact g2bMono_refl st.g2b
  | cons c cs ih =>
    intro gs st stats
    simp only [runLayersStd]
    exact g2bMono_trans (stdLoop_g2bMono c gs { st with count := 0 }) (ih _ _ _)

theorem runLayersStd_cis_ids :
    ∀ (cfgs : List LayerCfg) (gs : List CISGroup) (st : LoopState)
      (stats : List (String × Nat)),
      st.cis.map (fun r => r.id) = (runLayersStd cfgs gs st stats).2.1.cis.map (fun r => r.id) := by
  intro cfgs
  induction cfgs with
  | nil => intro gs st stats; rfl
  | cons c cs ih =>
    intro gs st stats
    simp only [runLayersStd]
    exact (stdLoop_cis_ids c gs { st with count := 0 }).trans (ih _ _ _)

theorem runLayersStd_statusBinary :
    ∀ (cfgs : List LayerCfg) (gs : List CISGroup) (st : LoopState)
      (stats : List (String × Nat)),
      statusBinary st.cis → statusBinary (runLayersStd cfgs gs st stats).2.1.cis := by
  intro cfgs
  induction cfgs with
  | nil => intro gs st stats h; exact h
  | cons c cs ih =>
    intro gs st stats h
    simp only [runLayersStd]
    exact ih _ _ _ (stdLoop_statusBinary c gs { st with count := 0 } h)

theorem coreA_flagMono (cisRaw : List RawCIS) (g2bRaw : List RawG2B) (tS tH : Int) :
    flagMono (clubCIS (preprocessCIS cisRaw)) (coreA cisRaw g2bRaw tS tH).1 := by
  simp only [coreA]
  exact runLayersStd_flagMono (layerCfgs tS tH) (clubCIS (preprocessCIS cisRaw))
    { cis := preprocessCIS cisRaw, g2b := preprocessG2B g2bRaw, audit := [], count := 0 } []

theorem coreA_g2bMono (cisRaw : List RawCIS) (g2bRaw : List RawG2B) (tS tH : Int) :
    g2bMono (preprocessG2B g2bRaw) (coreA cisRaw g2bRaw tS tH).2.1.g2b := by
  simp only [coreA]
  exact runLayersStd_g2bMono (layerCfgs tS tH) (clubCIS (preprocessCIS cisRaw))
    { cis := preprocessCIS cisRaw, g2b := preprocessG2B g2bRaw, audit := [], count := 0 } []

theorem coreA_cis_ids (cisRaw : List RawCIS) (g2bRaw : List RawG2B) (tS tH : Int) :
    (preprocessCIS cisRaw).map (fun r => r.id) =
      (coreA cisRaw g2bRaw tS tH).2.1.cis.map (fun r => r.id) := by
  simp only [coreA]
  exact runLayersStd_cis_ids (layerCfgs tS tH) (clubCIS (preprocessCIS cisRaw))
    { cis := preprocessCIS cisRaw, g2b := preprocessG2B g2bRaw, audit := [], count := 0 } []

theorem coreA_statusBinary (cisRaw : List RawCIS) (g2bRaw : List RawG2B) (tS tH : Int) :
    statusBinary (coreA cisRaw g2bRaw tS tH).2.1.cis := by
  simp only [coreA]
  exact runLayersStd_statusBinary (layerCfgs tS tH) (clubCIS (preprocessCIS cisRaw))
    { cis := preprocessCIS cisRaw, g2b := preprocessG2B g2bRaw, audit := [], count := 0 } []
    (preprocessCIS_statusBinary cisRaw)

theorem coreFuzzy_flagMono (tol : Int) (a : List CISGroup × LoopState × List (String × Nat)) :
    flagMono a.1 (coreFuzzy tol a).1 := by
  simp only [coreFuzzy]
  exact fuzzyLoop_flagMono tol a.1 { a.2.1 with count := 0 }

theorem coreFuzzy_g2bMono (tol : Int) (a : List CISGroup × LoopState × List (String × Nat)) :
    g2bMono a.2.1.g2b (coreFuzzy tol a).2.g2b := by
  simp only [coreFuzzy]
  exact fuzzyLoop_g2bMono tol a.1 { a.2.1 with count := 0 }

theorem coreFuzzy_cis_ids (tol : Int) (a : List CISGroup × LoopState × List (String × Nat)) :
    a.2.1.cis.map (fun r => r.id) = (coreFuzzy tol a).2.cis.map (fun r => r.id) := by
  simp only [coreFuzzy]
  exact fuzzyLoop_cis_ids tol a.1 { a.2.1 with count := 0 }

theorem coreFuzzy_statusBinary (tol : Int) (a : List CISGroup × LoopState × List (String × Nat))
    (h : statusBinary a.2.1.cis) : statusBinary (coreFuzzy tol a).2.cis := by
  simp only [coreFuzzy]
  exact fuzzyLoop_statusBinary tol a.1 { a.2.1 with count := 0 } h

/-! ## Helper lemmas: the state at the layer-8 raise, and the raise itself -/

theorem stateAtRaise_flagMono (cisRaw : List RawCIS) (g2bRaw : List RawG2B) (tS tH : Int) :
    flagMono (clubCIS (preprocessCIS cisRaw)) (groupsAtRaise cisRaw g2bRaw tS tH) := by
  simp only [groupsAtRaise]
  exact flagMono_trans (coreA_flagMono cisRaw g2bRaw tS tH)
    (coreFuzzy_flagMono tS (coreA cisRaw g2bRaw tS tH))

theorem stateAtRaise_g2bMono (cisRaw : List RawCIS) (g2bRaw : List RawG2B) (tS tH : Int) :
    g2bMono (preprocessG2B g2bRaw) (stateAtRaise cisRaw g2bRaw tS tH).g2b := by
  simp only [stateAtRaise]
  exact g2bMono_trans (coreA_g2bMono cisRaw g2bRaw tS tH)
    (coreFuzzy_g2bMono tS (coreA cisRaw g2bRaw tS tH))

theorem stateAtRaise_cis_ids (cisRaw : List RawCIS) (g2bRaw : List RawG2B) (tS tH : Int) :
    (preprocessCIS cisRaw).map (fun r => r.id) =
      (stateAtRaise cisRaw g2bRaw tS tH).cis.map (fun r => r.id) := by
  simp only [stateAtRaise]
  exact (coreA_cis_ids cisRaw g2bRaw tS tH).trans
    (coreFuzzy_cis_ids tS (coreA cisRaw g2bRaw tS tH))

theorem stateAtRaise_statusBinary (cisRaw : List RawCIS) (g2bRaw : List RawG2B)
    (tS tH : Int) : statusBinary (stateAtRaise cisRaw g2bRaw tS tH).cis := by
  simp only [stateAtRaise]
  exact coreFuzzy_statusBinary tS (coreA cisRaw g2bRaw tS tH)
    (coreA_statusBinary cisRaw g2bRaw tS tH)

theorem coreRev_eq (tol : Int) (r7 : List CISGroup × LoopState) :
    coreRev tol r7 = Except.error pyValueError := rfl

theorem engineCore_eq (cisRaw : List RawCIS) (g2bRaw : List RawG2B)
    (tS tH : Int) (cb : Option ProgressCb) :
    engineCore cisRaw g2bRaw tS tH cb = Except.error pyValueError := rfl

theorem run_eq (cisRaw : List RawCIS) (g2bRaw : List RawG2B)
    (tS tH : Int) (now : String) (cb : Option ProgressCb) :
    run_8_layer_reconciliation cisRaw g2bRaw tS tH now cb =
      Except.error pyValueError := rfl

/-! ## Helper lemmas: status counting -/

theorem statusBinary_count : ∀ (l : List CISRow), statusBinary l →
    l.countP (fun r => r.status == "Matched") +
      l.countP (fun r => r.status == "Unmatched") = l.length := by
  intro l
  induction l with
  | nil => intro _; rfl
  | cons a t ih =>
    intro h
    have ht := ih (fun r hr => h r (List.mem_cons_of_mem a hr))
    have e1 : (("Matched" : String) == "Unmatched") = false := by decide
    have e2 : (("Unmatched" : String) == "Matched") = false := by decide
    rcases h a (List.mem_cons_self a t) with hs | hs
    · simp [List.countP_cons, hs, e1, e2]
      omega
    · simp [List.countP_cons, hs, e1, e2]
      omega

/-! ## Claim C1: monotonic exclusion -/

/-- Claim C1: every layer loop that executes — the six standard layers and
the fuzzy layer — preserves a true matched flag and a Matched reference
status (positionwise) and skips a group whose matched flag is already true,
leaving the state untouched; over the whole run, up to the point it
terminates (which on every input is the `ValueError` raised by the layer-8
grouping), a group flag once true stays true and a reference row once
Matched stays Matched; layer 8 itself scans no group and no reference row at
all — its stage returns the raised error for every input state, in
particular never scanning a matched group or a Matched row; and both
candidate selections only ever return reference rows whose status is
Unmatched. -/
theorem claim_C1 :
    (∀ (cfg : LayerCfg) (gs : List CISGroup) (st : LoopState),
        flagMono gs (stdLoop cfg gs st).1) ∧
    (∀ (tol : Int) (gs : List CISGroup) (st : LoopState),
        flagMono gs (fuzzyLoop tol gs st).1) ∧
    (∀ (cfg : LayerCfg) (gs : List CISGroup) (st : LoopState),
        g2bMono st.g2b (stdLoop cfg gs st).2.g2b) ∧
    (∀ (tol : Int) (gs : List CISGroup) (st : LoopState),
        g2bMono st.g2b (fuzzyLoop tol gs st).2.g2b) ∧
    (∀ (cisRaw : List RawCIS) (g2bRaw : List RawG2B) (tS tH : Int),
        flagMono (clubCIS (preprocessCIS cisRaw)) (groupsAtRaise cisRaw g2bRaw tS tH)) ∧
    (∀ (cisRaw : List RawCIS) (g2bRaw : List RawG2B) (tS tH : Int),
        g2bMono (preprocessG2B g2bRaw) (stateAtRaise cisRaw g2bRaw tS tH).g2b) ∧
    (∀ (tol : Int) (r7 : List CISGroup × LoopState),
        coreRev tol r7 = Except.error pyValueError) ∧
    (∀ (cfg : LayerCfg) (g : CISGroup) (gs : List CISGroup) (st : LoopState),
        g.matchedFlag = true →
        stdLoop cfg (g :: gs) st = (g :: (stdLoop cfg gs st).1, (stdLoop cfg gs st).2)) ∧
    (∀ (tol : Int) (g : CISGroup) (gs : List CISGroup) (st : LoopState),
        g.matchedFlag = true →
        fuzzyLoop tol (g :: gs) st = (g :: (fuzzyLoop tol gs st).1, (fuzzyLoop tol gs st).2)) ∧
    (∀ (cfg : LayerCfg) (g : CISGroup) (rows : List G2BRow) (r : G2BRow),
        stdFind cfg g rows = some r → r.status = "Unmatched") ∧
    (∀ (tol : Int) (g : CISGroup) (rows : List G2BRow) (r : G2BRow) (bs : Nat × Nat),
        fuzzyPick tol g rows = (some r, bs) → r.status = "Unmatched") :=
  ⟨stdLoop_flagMono, fuzzyLoop_flagMono,
   stdLoop_g2bMono, fuzzyLoop_g2bMono,
   stateAtRaise_flagMono, stateAtRaise_g2bMono,
   fun _ _ => rfl,
   stdLoop_skip_matched, fuzzyLoop_skip_matched,
   stdFind_unmatched,
   fun tol g rows r bs h => (fuzzyPick_unmatched tol g rows r bs h).1⟩

/-- Claim C1, witness: a concrete matched group is skipped untouched by a
standard layer, and a concrete candidate returned by the scan is Unmatched. -/
theorem claim_C1_witness :
    stdLoop cfgW [gWMatched] stW = ([gWMatched], stW) ∧ rWBoundary.status = "Unmatched" :=
  ⟨(claim_C1.2.2.2.2.2.2.2.1 cfgW gWMatched [] stW (by decide)).trans (by decide),
   claim_C1.2.2.2.2.2.2.2.2.2.1 cfgW gW [rWBoundary] rWBoundary (by decide)⟩

/-! ## Claim C6: conservation -/

/-- Claim C6 (a code defect): the claimed conservation law is about the
annotated output table, and the code never produces one — on every input the
run raises the layer-8 `ValueError` instead of returning, so there is no
output in which any record could appear.  The law does hold of everything
the code computes before dying: in the working source table at the moment of
the raise, the record ids are exactly 1 … n in order, every status is
Matched or Unmatched, and the two counts add up to the record count. -/
theorem claim_C6 :
    (∀ (cisRaw : List RawCIS) (g2bRaw : List RawG2B) (tS tH : Int)
        (now : String) (cb : Option ProgressCb),
        run_8_layer_reconciliation cisRaw g2bRaw tS tH now cb =
          Except.error pyValueError) ∧
    (∀ (cisRaw : List RawCIS) (g2bRaw : List RawG2B) (tS tH : Int),
        (stateAtRaise cisRaw g2bRaw tS tH).cis.map (fun r => r.id) =
            List.range' 1 cisRaw.length ∧
        statusBinary (stateAtRaise cisRaw g2bRaw tS tH).cis ∧
        (stateAtRaise cisRaw g2bRaw tS tH).cis.countP
            (fun r => r.status == "Matched") +
          (stateAtRaise cisRaw g2bRaw tS tH).cis.countP
            (fun r => r.status == "Unmatched") = cisRaw.length ∧
        (stateAtRaise cisRaw g2bRaw tS tH).cis.length = cisRaw.length) := by
  refine ⟨fun _ _ _ _ _ _ => rfl, fun cisRaw g2bRaw tS tH => ?_⟩
  have hids : (stateAtRaise cisRaw g2bRaw tS tH).cis.map (fun r => r.id) =
      List.range' 1 cisRaw.length := by
    rw [← stateAtRaise_cis_ids cisRaw g2bRaw tS tH]
    exact preprocessCIS_ids cisRaw
  have hbin := stateAtRaise_statusBinary cisRaw g2bRaw tS tH
  have hlen : (stateAtRaise cisRaw g2bRaw tS tH).cis.length = cisRaw.length := by
    have := congrArg List.length hids
    simpa [List.length_map, List.length_range'] using this
  refine ⟨hids, hbin, ?_, hlen⟩
  rw [statusBinary_count _ hbin, hlen]

/-! ## Claim C7: determinism and callback noninterference -/

/-- Claim C7 (a code defect): the claimed determinism and callback
noninterference concern the outputs of a run, and no run ever produces
outputs — every run raises the layer-8 `ValueError`.  What the code does
compute is deterministic and callback-independent: two runs on identical
inputs and tolerances, with any clock readings and any (or no) progress
callbacks, return the identical raised error, and neither the clock nor the
callback influences even that. -/
theorem claim_C7 :
    ∀ (cisRaw : List RawCIS) (g2bRaw : List RawG2B) (tS tH : Int)
      (now1 now2 : String) (cb1 cb2 : Option ProgressCb),
      run_8_layer_reconciliation cisRaw g2bRaw tS tH now1 cb1 =
          run_8_layer_reconciliation cisRaw g2bRaw tS tH now2 cb2 ∧
      run_8_layer_reconciliation cisRaw g2bRaw tS tH now1 cb1 =
          Except.error pyValueError :=
  fun _ _ _ _ _ _ _ _ => ⟨rfl, rfl⟩

/-! ## Claim C9: the time-barred flag -/

/-- Claim C9 (a code defect): the time-barred step (source lines 644–649)
runs only after `run_reverse_clubbing` returns, and that call raises on
every run, so the step never executes and no record ever receives the flag.
Shown at a concrete input whose single record is dated 1 January 2024 —
strictly before the statutory cutoff — and is Matched by layer 1: the run
returns the raised error instead of a table, and the working table at the
raise still carries the plain remark with no appended warning. -/
theorem claim_C9 :
    run_8_layer_reconciliation tbCIS tbG2B 200 5000 "t0" none =
        Except.error pyValueError ∧
    (stateAtRaise tbCIS tbG2B 200 5000).cis.map
        (fun r : CISRow => (r.status, r.shortRemark, r.date)) =
      [("Matched", "Matched", some 20240101)] ∧
    20240101 < statutoryCutoff := by
  exact ⟨rfl, by decide, by decide⟩

/-! ## Helper lemmas: exact fraction comparisons for similarity scores -/

theorem simScore_den_pos (s1 s2 : String) : 0 < (get_similarity_score s1 s2).2 := by
  simp only [get_similarity_score]
  by_cases h : (s1.data.length + s2.data.length == 0) = true
  · rw [if_pos h]
    exact Nat.one_pos
  · rw [if_neg h]
    show 0 < s1.data.length + s2.data.length
    have hne : s1.data.length + s2.data.length ≠ 0 := by
      intro he
      exact h (by rw [he]; rfl)
    exact Nat.pos_of_ne_zero hne

theorem score_le_of_gt {a b : Nat × Nat} (h : scoreGt a b = true) : scoreLe b a = true := by
  simp only [scoreGt, decide_eq_true_eq] at h
  simp only [scoreLe, decide_eq_true_eq]
  exact le_of_lt h

theorem score_le_of_not_gt {a b : Nat × Nat} (h : scoreGt a b = false) : scoreLe a b = true := by
  simp only [scoreGt, decide_eq_false_iff_not] at h
  simp only [scoreLe, decide_eq_true_eq]
  exact Nat.le_of_not_lt h

theorem score_le_trans {a b c : Nat × Nat} (hb : 0 < b.2) (h1 : scoreLe a b = true)
    (h2 : scoreLe b c = true) : scoreLe a c = true := by
  simp only [scoreLe, decide_eq_true_eq] at h1 h2 ⊢
  have h3 : a.1 * c.2 * b.2 ≤ c.1 * a.2 * b.2 := by
    calc a.1 * c.2 * b.2 = a.1 * b.2 * c.2 := by ring
    _ ≤ b.1 * a.2 * c.2 := mul_le_mul_right' h1 c.2
    _ = b.1 * c.2 * a.2 := by ring
    _ ≤ c.1 * b.2 * a.2 := mul_le_mul_right' h2 a.2
    _ = c.1 * a.2 * b.2 := by ring
  exact Nat.le_of_mul_le_mul_right h3 hb

theorem score_gt_of_le_of_gt {a m b : Nat × Nat} (ha : 0 < a.2)
    (h1 : scoreLe a m = true) (h2 : scoreGt b m = true) : scoreGt b a = true := by
  simp only [scoreLe, scoreGt, decide_eq_true_eq] at h1 h2 ⊢
  have h3 : a.1 * b.2 * m.2 < b.1 * a.2 * m.2 := by
    calc a.1 * b.2 * m.2 = a.1 * m.2 * b.2 := by ring
    _ ≤ m.1 * a.2 * b.2 := mul_le_mul_right' h1 b.2
    _ = m.1 * b.2 * a.2 := by ring
    _ < b.1 * m.2 * a.2 := mul_lt_mul_of_pos_right h2 ha
    _ = b.1 * a.2 * m.2 := by ring
  exact lt_of_mul_lt_mul_right h3 (Nat.zero_le m.2)

theorem score_gt_of_gt85_le85 {a b : Nat × Nat} (hb : 0 < b.2)
    (h1 : scoreGt85 a = true) (h2 : scoreGt85 b = false) : scoreGt a b = true := by
  simp only [scoreGt85, decide_eq_true_eq, decide_eq_false_iff_not] at h1 h2
  simp only [scoreGt, decide_eq_true_eq]
  have h2le : b.1 ≤ 85 * b.2 := Nat.le_of_not_lt h2
  calc b.1 * a.2 ≤ 85 * b.2 * a.2 := mul_le_mul_right' h2le a.2
  _ = 85 * a.2 * b.2 := by ring
  _ < a.1 * b.2 := mul_lt_mul_of_pos_right h1 hb

theorem score_le_of_le85_gt85 {a b : Nat × Nat} (h1 : scoreGt85 a = false)
    (h2 : scoreGt85 b = true) : scoreLe a b = true := by
  simp only [scoreGt85, decide_eq_true_eq, decide_eq_false_iff_not] at h1 h2
  simp only [scoreLe, decide_eq_true_eq]
  have h1le : a.1 ≤ 85 * a.2 := Nat.le_of_not_lt h1
  calc a.1 * b.2 ≤ 85 * a.2 * b.2 := mul_le_mul_right' h1le b.2
  _ = 85 * b.2 * a.2 := by ring
  _ ≤ b.1 * a.2 := mul_le_mul_right' (le_of_lt h2) a.2

/-! ## Helper lemmas: the layer-7 best-candidate scan -/

theorem fuzzyScan_den_pos (tol : Int) (inv : String) (gT : Int) :
    ∀ (l : List G2BRow) (b : Option G2BRow) (s : Nat × Nat), 0 < s.2 →
      0 < (fuzzyScan tol inv gT l b s).2.2 := by
  intro l
  induction l with
  | nil => intro b s hs; simpa [fuzzyScan] using hs
  | cons c cs ih =>
    intro b s hs
    simp only [fuzzyScan]
    by_cases h1 : tol < aabs (gT - c.grandTotal)
    · rw [if_pos h1]; exact ih b s hs
    · rw [if_neg h1]
      by_cases h2 : (scoreGt85 (get_similarity_score inv c.invBasic) &&
          scoreGt (get_similarity_score inv c.invBasic) s) = true
      · rw [if_pos h2]
        exact ih _ _ (simScore_den_pos inv c.invBasic)
      · rw [if_neg h2]; exact ih b s hs

theorem fuzzyScan_mono (tol : Int) (inv : String) (gT : Int) :
    ∀ (l : List G2BRow) (b : Option G2BRow) (s : Nat × Nat), 0 < s.2 →
      scoreLe s (fuzzyScan tol inv gT l b s).2 = true := by
  intro l
  induction l with
  | nil =>
    intro b s hs
    simp only [fuzzyScan, scoreLe, decide_eq_true_eq]
    exact le_refl _
  | cons c cs ih =>
    intro b s hs
    simp only [fuzzyScan]
    by_cases h1 : tol < aabs (gT - c.grandTotal)
    · rw [if_pos h1]; exact ih b s hs
    · rw [if_neg h1]
      by_cases h2 : (scoreGt85 (get_similarity_score inv c.invBasic) &&
          scoreGt (get_similarity_score inv c.invBasic) s) = true
      · rw [if_pos h2]
        have hgt : scoreGt (get_similarity_score inv c.invBasic) s = true :=
          (Bool.and_eq_true_iff.mp h2).2
        exact score_le_trans (simScore_den_pos inv c.invBasic) (score_le_of_gt hgt)
          (ih _ _ (simScore_den_pos inv c.invBasic))
      · rw [if_neg h2]; exact ih b s hs

theorem fuzzyScan_bound (tol : Int) (inv : String) (gT : Int) :
    ∀ (l : List G2BRow) (b : Option G2BRow) (s : Nat × Nat), 0 < s.2 →
      ∀ c ∈ l, aabs (gT - c.grandTotal) ≤ tol →
        scoreGt85 (get_similarity_score inv c.invBasic) = true →
        scoreLe (get_similarity_score inv c.invBasic)
          (fuzzyScan tol inv gT l b s).2 = true := by
  intro l
  induction l with
  | nil => intro b s hs c hc; cases hc
  | cons c0 cs ih =>
    intro b s hs c hc hgate h85
    simp only [fuzzyScan]
    by_cases h1 : tol < aabs (gT - c0.grandTotal)
    · rw [if_pos h1]
      rcases List.mem_cons.mp hc with rfl | hcs
      · exact absurd hgate (not_le.mpr h1)
      · exact ih b s hs c hcs hgate h85
    · rw [if_neg h1]
      by_cases h2 : (scoreGt85 (get_similarity_score inv c0.invBasic) &&
          scoreGt (get_similarity_score inv c0.invBasic) s) = true
      · rw [if_pos h2]
        rcases List.mem_cons.mp hc with rfl | hcs
        · exact fuzzyScan_mono tol inv gT cs _ _ (simScore_den_pos inv c.invBasic)
        · exact ih _ _ (simScore_den_pos inv c0.invBasic) c hcs hgate h85
      · rw [if_neg h2]
        rcases List.mem_cons.mp hc with rfl | hcs
        · have hng : scoreGt (get_similarity_score inv c.invBasic) s = false := by
            cases hgg : scoreGt (get_similarity_score inv c.invBasic) s
            · rfl
            · exact absurd (by rw [h85, hgg]; rfl :
                (scoreGt85 (get_similarity_score inv c.invBasic) &&
                  scoreGt (get_similarity_score inv c.invBasic) s) = true) h2
          exact score_le_trans hs (score_le_of_not_gt hng) (fuzzyScan_mono tol inv gT cs b s hs)
        · exact ih b s hs c hcs hgate h85

theorem fuzzyScan_split (tol : Int) (inv : String) (gT : Int) :
    ∀ (l : List G2BRow) (b : Option G2BRow) (s : Nat × Nat), 0 < s.2 →
      ∀ (r : G2BRow) (t : Nat × Nat), fuzzyScan tol inv gT l b s = (some r, t) →
        (b = some r ∧ t = s) ∨
        ∃ pre post, l = pre ++ r :: post ∧ aabs (gT - r.grandTotal) ≤ tol ∧
          t = get_similarity_score inv r.invBasic ∧ scoreGt85 t = true ∧
          scoreGt t (fuzzyScan tol inv gT pre b s).2 = true := by
  intro l
  induction l with
  | nil =>
    intro b s hs r t h
    simp only [fuzzyScan] at h
    exact Or.inl ⟨congrArg Prod.fst h, (congrArg Prod.snd h).symm⟩
  | cons c cs ih =>
    intro b s hs r t h
    rw [fuzzyScan] at h
    by_cases h1 : tol < aabs (gT - c.grandTotal)
    · rw [if_pos h1] at h
      rcases ih b s hs r t h with hl | ⟨pre, post, hsplit, hg, ht, h85, hgt⟩
      · exact Or.inl hl
      · refine Or.inr ⟨c :: pre, post, by rw [hsplit, List.cons_append], hg, ht, h85, ?_⟩
        have hstep : fuzzyScan tol inv gT (c :: pre) b s = fuzzyScan tol inv gT pre b s := by
          rw [fuzzyScan, if_pos h1]
        rw [hstep]
        exact hgt
    · rw [if_neg h1] at h
      by_cases h2 : (scoreGt85 (get_similarity_score inv c.invBasic) &&
          scoreGt (get_similarity_score inv c.invBasic) s) = true
      · rw [if_pos h2] at h
        rcases ih _ _ (simScore_den_pos inv c.invBasic) r t h with ⟨hb, ht⟩ |
            ⟨pre, post, hsplit, hg, ht, h85, hgt⟩
        · have hcr : c = r := Option.some.inj hb
          subst hcr
          refine Or.inr ⟨[], cs, rfl, not_lt.mp h1, ht, ?_, ?_⟩
          · rw [ht]
            exact (Bool.and_eq_true_iff.mp h2).1
          · have hnil : (fuzzyScan tol inv gT [] b s).2 = s := rfl
            rw [hnil, ht]
            exact (Bool.and_eq_true_iff.mp h2).2
        · refine Or.inr ⟨c :: pre, post, by rw [hsplit, List.cons_append], hg, ht, h85, ?_⟩
          have hstep : fuzzyScan tol inv gT (c :: pre) b s =
              fuzzyScan tol inv gT pre (some c) (get_similarity_score inv c.invBasic) := by
            rw [fuzzyScan, if_neg h1, if_pos h2]
          rw [hstep]
          exact hgt
      · rw [if_neg h2] at h
        rcases ih b s hs r t h with hl | ⟨pre, post, hsplit, hg, ht, h85, hgt⟩
        · exact Or.inl hl
        · refine Or.inr ⟨c :: pre, post, by rw [hsplit, List.cons_append], hg, ht, h85, ?_⟩
          have hstep : fuzzyScan tol inv gT (c :: pre) b s = fuzzyScan tol inv gT pre b s := by
            rw [fuzzyScan, if_neg h1, if_neg h2]
          rw [hstep]
          exact hgt

/-! ## Claim C5: the fuzzy layer's candidate selection -/

/-- Claim C5: when layer 7 selects a candidate for a group, that candidate is
an Unmatched reference row with the identical exact normalized supplier id
and within the standard-tolerance amount gate; its similarity score (between
the two punctuation-stripped keys) is strictly above 85 — a score of exactly
85 can never be selected; the score is maximal among all rows surviving the
prefilter and the amount gate; the winner is the first-encountered candidate
attaining that score (every earlier gated candidate scores strictly below
it); and the loop then commits exactly this candidate. -/
theorem claim_C5 :
    (∀ (tol : Int) (g : CISGroup) (rows : List G2BRow) (r : G2BRow) (bs : Nat × Nat),
      fuzzyPick tol g rows = (some r, bs) →
      r ∈ rows ∧ r.status = "Unmatched" ∧ r.normGstin = g.normGstin ∧
      aabs (g.grandTotal - r.grandTotal) ≤ tol ∧
      bs = get_similarity_score g.invBasic r.invBasic ∧
      scoreGt85 bs = true ∧
      (∀ c ∈ rows, c.status = "Unmatched" → c.normGstin = g.normGstin →
        aabs (g.grandTotal - c.grandTotal) ≤ tol →
        scoreLe (get_similarity_score g.invBasic c.invBasic) bs = true) ∧
      (∃ pre post, fuzzyCandidates g.normGstin rows = pre ++ r :: post ∧
        ∀ c ∈ pre, aabs (g.grandTotal - c.grandTotal) ≤ tol →
          scoreGt bs (get_similarity_score g.invBasic c.invBasic) = true)) ∧
    (∀ (tol : Int) (g : CISGroup) (gs : List CISGroup) (st : LoopState)
        (r : G2BRow) (bs : Nat × Nat),
      g.matchedFlag = false → ¬ g.invBasic.length < 3 →
      fuzzyPick tol g st.g2b = (some r, bs) →
      fuzzyLoop tol (g :: gs) st =
        ({ g with matchedFlag := true } ::
           (fuzzyLoop tol gs
             { commitMatch "Layer 7: Fuzzy Match" g.memberIds [r.idx]
                 (aabs (g.grandTotal - r.grandTotal)) (fuzzyDetail g.invBasic r bs) st with
               count := (commitMatch "Layer 7: Fuzzy Match" g.memberIds [r.idx]
                 (aabs (g.grandTotal - r.grandTotal)) (fuzzyDetail g.invBasic r bs) st).count + 1 }).1,
         (fuzzyLoop tol gs
             { commitMatch "Layer 7: Fuzzy Match" g.memberIds [r.idx]
                 (aabs (g.grandTotal - r.grandTotal)) (fuzzyDetail g.invBasic r bs) st with
               count := (commitMatch "Layer 7: Fuzzy Match" g.memberIds [r.idx]
                 (aabs (g.grandTotal - r.grandTotal)) (fuzzyDetail g.invBasic r bs) st).count + 1 }).2)) := by
  constructor
  · intro tol g rows r bs h
    unfold fuzzyPick at h
    have hone : (0 : Nat) < (0, 1).2 := Nat.one_pos
    rcases fuzzyScan_split tol g.invBasic g.grandTotal
        (fuzzyCandidates g.normGstin rows) none (0, 1) hone r bs h with ⟨hb, _⟩ |
        ⟨pre, post, hsplit, hgate, hbs, h85, hgtpre⟩
    · cases hb
    have hrmem : r ∈ fuzzyCandidates g.normGstin rows := by
      rw [hsplit]
      exact List.mem_append_right pre (List.mem_cons_self r post)
    have hrfil := List.mem_filter.mp hrmem
    have hrprops : r.status = "Unmatched" ∧ r.normGstin = g.normGstin := by
      have := hrfil.2
      simp only [Bool.and_eq_true, beq_iff_eq] at this
      exact this
    have hsnd : (fuzzyScan tol g.invBasic g.grandTotal
        (fuzzyCandidates g.normGstin rows) none (0, 1)).2 = bs := congrArg Prod.snd h
    refine ⟨hrfil.1, hrprops.1, hrprops.2, hgate, hbs, h85, ?_, ?_⟩
    · intro c hc hcs hcg hcgate
      have hcmem : c ∈ fuzzyCandidates g.normGstin rows :=
        List.mem_filter.mpr ⟨hc, by simp [hcs, hcg]⟩
      cases h85c : scoreGt85 (get_similarity_score g.invBasic c.invBasic) with
      | true =>
        have := fuzzyScan_bound tol g.invBasic g.grandTotal
          (fuzzyCandidates g.normGstin rows) none (0, 1) hone c hcmem hcgate h85c
        rw [hsnd] at this
        exact this
      | false => exact score_le_of_le85_gt85 h85c h85
    · refine ⟨pre, post, hsplit, ?_⟩
      intro c hcpre hcgate
      cases h85c : scoreGt85 (get_similarity_score g.invBasic c.invBasic) with
      | true =>
        have hb := fuzzyScan_bound tol g.invBasic g.grandTotal pre none (0, 1) hone
          c hcpre hcgate h85c
        exact score_gt_of_le_of_gt (simScore_den_pos g.invBasic c.invBasic) hb hgtpre
      | false =>
        exact score_gt_of_gt85_le85 (simScore_den_pos g.invBasic c.invBasic) h85 h85c
  · intro tol g gs st r bs h1 h2 hp
    simp [fuzzyLoop, loopGroups, fuzzyStep, h1, h2, hp]

/-- Claim C5, witness: at the concrete group `gW` and the single candidate
`rW` (score 1200/14 ≈ 85.7), the pick is `rW`, it is Unmatched with the
identical supplier id, and its score is strictly above 85. -/
theorem claim_C5_witness :
    rW ∈ [rW] ∧ rW.status = "Unmatched" ∧ scoreGt85 (1200, 14) = true := by
  have h := claim_C5.1 200 gW [rW] rW (1200, 14) (by decide)
  exact ⟨h.1, h.2.1, h.2.2.2.2.2.1⟩

end GSTRecon
